import Mathlib

/-!
Shallow embedding of the rust-psx emulator core (src/cpu.rs, src/mmu.rs,
src/timers.rs) and verification of the spec claims about it.

Machine integers are modelled as Nat, with explicit `% 2^32` (resp. `% 2^16`,
`% 2^8`) wherever the Rust u32/u16/u8 arithmetic wraps or truncates.
Rust panics (including out-of-bounds slice indexing and debug-mode integer
over/underflow aborts) are modelled as `none`; fallible operations return
`Option`.
-/

namespace PSX

/-- Reinterpret a u32 bit pattern as a signed i32 value (Rust `as i32`). -/
def toI32 (x : Nat) : Int :=
  if x % 4294967296 < 2147483648 then ((x % 4294967296 : Nat) : Int)
  else ((x % 4294967296 : Nat) : Int) - 4294967296

/-- Reinterpret a signed value as a u32 bit pattern (Rust `as u32`). -/
def toU32 (v : Int) : Nat :=
  (v % 4294967296).toNat

/-- Sign extension of the low 8 bits (Rust `as i8` followed by `as u32`). -/
def signExtend8 (x : Nat) : Nat :=
  let b := x % 256
  if b < 128 then b else b + 0xFFFFFF00

/-- Sign extension of the low 16 bits (Rust `as i16` followed by `as u32`). -/
def signExtend16 (x : Nat) : Nat :=
  let h := x % 65536
  if h < 32768 then h else h + 0xFFFF0000

/-! ## Timers (src/timers.rs) -/

structure Timer where
  sync_enabled : Bool
  counter : Nat
  target : Nat
  use_system_clock : Bool
  deriving Repr, DecidableEq

def Timer.new : Timer :=
  { sync_enabled := false, counter := 0, target := 0, use_system_clock := true }

/-- Timer::step: the counter increment is commented out in the source, so the
timer is unchanged whether or not it uses the system clock. -/
def Timer.step (t : Timer) (_cycles : Nat) : Timer :=
  if t.use_system_clock then t else t

structure Timers where
  timers : Nat → Timer

def Timers.new : Timers :=
  { timers := fun _ => Timer.new }

def Timers.step (ts : Timers) (cycles : Nat) : Timers :=
  { timers := fun i => (ts.timers i).step cycles }

/-- Timers::read unconditionally panics ("TODO") in the source. -/
def Timers.read (_ts : Timers) (_address : Nat) : Option Nat :=
  none

/-- Timers::write: timer_index = address >> 4; indexing timers[timer_index]
panics when the index exceeds 2; `match address % 4` writes the counter for
remainder 0, has an unreachable arm for 8, and panics otherwise. -/
def Timers.write (ts : Timers) (address value : Nat) : Option Timers :=
  let timer_index := address >>> 4
  if timer_index < 3 then
    if address % 4 = 0 then
      some { timers := fun i =>
        if i = timer_index then { ts.timers i with counter := value % 65536 }
        else ts.timers i }
    else if address % 4 = 8 then
      some { timers := fun i =>
        if i = timer_index then { ts.timers i with target := value % 65536 }
        else ts.timers i }
    else none
  else none

/-! ## MMU (src/mmu.rs) -/

def RAM_START : Nat := 0x00000000
def RAM_SIZE : Nat := 2 * 1024 * 1024
def RAM_END : Nat := RAM_START + RAM_SIZE

def EXPANSION_1_START : Nat := 0x1F000000
def EXPANSION_1_SIZE : Nat := 8 * 1024 * 1024
def EXPANSION_1_END : Nat := EXPANSION_1_START + EXPANSION_1_SIZE

def IO_START : Nat := 0x1F801000
def IO_SIZE : Nat := 4 * 1024
def IO_END : Nat := IO_START + IO_SIZE

def EXPANSION_2_START : Nat := 0x1F802000
def EXPANSION_2_SIZE : Nat := 66
def EXPANSION_2_END : Nat := EXPANSION_2_START + EXPANSION_2_SIZE

def BIOS_START : Nat := 0x1FC00000
def BIOS_SIZE : Nat := 512 * 1024
def BIOS_END : Nat := BIOS_START + BIOS_SIZE

/-- MEMORY_REGION_MASK, indexed by the top three address bits.  For a 32-bit
address the index is always 0..7; entries 6 and 7 equal the KUSEG entries, so
the catch-all arm reproduces the source array. -/
def MEMORY_REGION_MASK (i : Nat) : Nat :=
  match i with
  | 0 | 1 | 2 | 3 => 0xFFFFFFFF -- KUSEG
  | 4 => 0x7FFFFFFF             -- KSEG0
  | 5 => 0x1FFFFFFF             -- KSEG1
  | _ => 0xFFFFFFFF             -- KSEG2

structure MMU where
  bios : List Nat       -- BIOS bytes (each < 256)
  ram : Nat → Nat       -- 2 MiB of RAM bytes, indices 0 .. RAM_SIZE - 1
  memory_control : Nat → Nat  -- nine words, indices 0..8
  ram_size : Nat
  cache_control : Nat
  interrupt_status : Nat      -- u16
  interrupt_mask : Nat        -- u16
  timers : Timers

def MMU.new (bios : List Nat) : MMU :=
  { bios := bios
    ram := fun _ => 0
    memory_control := fun _ => 0
    ram_size := 0
    cache_control := 0
    interrupt_status := 0
    interrupt_mask := 0
    timers := Timers.new }

def MMU.step (m : MMU) (cycles : Nat) : MMU :=
  { m with timers := m.timers.step cycles }

def MMU.is_instruction_cache_enabled (m : MMU) : Bool :=
  m.cache_control &&& 0x800 != 0

def MMU.is_instruction_cache_tag_test_mode (m : MMU) : Bool :=
  m.cache_control &&& 4 != 0

/-- Little-endian assembly of `size` bytes: `word |= source[i] << (i*8)`;
indexing the four-byte slice `source` panics when `size > 4`. -/
def assembleWord (source : Nat → Nat) (size : Nat) : Nat :=
  (List.range size).foldl (fun word i => word ||| (source i <<< (i * 8))) 0

/-- MMU::read.  The address is first folded through MEMORY_REGION_MASK.  The
RAM and BIOS arms slice four consecutive bytes (`source[offset..offset+4]`)
regardless of `size`, so they panic (`none`) when `offset + 4` exceeds the
region length.  Timers::read panics.  Unknown addresses panic. -/
def MMU.read (m : MMU) (address size : Nat) : Option Nat :=
  let address := address &&& MEMORY_REGION_MASK (address >>> 29)
  if size > 1 ∧ address = 0x1F801070 then some m.interrupt_status
  else if size > 1 ∧ address = 0x1F801074 then some m.interrupt_mask
  else if size > 1 ∧ 0x1F801080 ≤ address ∧ address < 0x1F801100 then some 0 -- DMA
  else if size > 1 ∧ 0x1F801C00 ≤ address ∧ address < 0x1F801E80 then some 0 -- SPU
  else if size > 1 ∧ 0x1F801100 ≤ address ∧ address < 0x1F80112F then
    m.timers.read (address - 0x1F801100)
  else if RAM_START ≤ address ∧ address < RAM_END then
    if address + 4 ≤ RAM_SIZE ∧ size ≤ 4 then
      some (assembleWord (fun i => m.ram (address + i)) size)
    else none
  else if BIOS_START ≤ address ∧ address < BIOS_END then
    let offset := address - BIOS_START
    if offset + 4 ≤ m.bios.length ∧ size ≤ 4 then
      some (assembleWord (fun i => m.bios.getD (offset + i) 0) size)
    else none
  else if EXPANSION_1_START ≤ address ∧ address < EXPANSION_1_END then
    -- Emulate nothing being connected to the expansion port (returns !0)
    some 0xFFFFFFFF
  else none

/-- MMU::write.  The match arm for memory control 1 uses the literal range
`0x1F80100..=0x1F801020` as in the source (note the seven-digit lower bound);
computing `address - IO_START` underflows (debug-mode panic) for addresses
below IO_START that fall into that arm. -/
def MMU.write (m : MMU) (address size value : Nat) : Option MMU :=
  let address := address &&& MEMORY_REGION_MASK (address >>> 29)
  if RAM_START ≤ address ∧ address < RAM_END then
    if address + size ≤ RAM_SIZE then
      some { m with ram := (fun a =>
        if address ≤ a ∧ a < address + size then (value >>> ((a - address) * 8)) % 256
        else m.ram a) }
    else none
  else if EXPANSION_1_START ≤ address ∧ address < EXPANSION_1_END then
    none -- "Cannot write to expansion"
  else if 0x1F80100 ≤ address ∧ address ≤ 0x1F801020 then
    if IO_START ≤ address then
      let index := (address - IO_START) >>> 2
      if index < 9 then
        some { m with memory_control := (fun i =>
          if i = index then value else m.memory_control i) }
      else none
    else none -- u32 subtraction underflow / index out of bounds
  else if address = 0x1F801060 then
    some { m with ram_size := value }
  else if address = 0x1F801070 then
    some { m with interrupt_status := value % 65536 }
  else if address = 0x1F801074 then
    some { m with interrupt_mask := value % 65536 }
  else if 0x1F801080 ≤ address ∧ address < 0x1F801100 then
    some m -- "Ignoring DMA write"
  else if 0x1F801100 ≤ address ∧ address < 0x1F80112F then
    match m.timers.write (address - 0x1F801100) value with
    | some ts => some { m with timers := ts }
    | none => none
  else if 0x1F801C00 ≤ address ∧ address < 0x1F801E80 then
    some m -- SPU registers, ignored
  else if EXPANSION_2_START ≤ address ∧ address < EXPANSION_2_END then
    some m -- DUART, ignored
  else if address = 0xFFFE0130 then
    some { m with cache_control := value }
  else none

/-! ## CPU (src/cpu.rs) -/

structure InstructionCacheLine where
  valid : Nat        -- the index of the first valid word
  tag : Nat
  data : Nat → Nat   -- four words per cache line, indices 0..3

def InstructionCacheLine.new : InstructionCacheLine :=
  { valid := 0xFFFF, tag := 0, data := fun _ => 0 }

structure Instruction where
  val : Nat

/-- Opcode is last 6 bits. -/
def Instruction.opcode (i : Instruction) : Nat := i.val >>> 26

/-- Secondary opcode is first 6 bits. -/
def Instruction.secondary_opcode (i : Instruction) : Nat := i.val &&& 0x3F

/-- Immediate values are first 16 bits. -/
def Instruction.immediate (i : Instruction) : Nat := i.val &&& 0xFFFF

/-- Immediate value, sign-extended (`as i16` then `as u32`). -/
def Instruction.immediate_sign_extended (i : Instruction) : Nat :=
  signExtend16 (i.val &&& 0xFFFF)

/-- T is bit 16..20. -/
def Instruction.t (i : Instruction) : Nat := (i.val >>> 16) &&& 0x1F

/-- S is bit 21..25. -/
def Instruction.s (i : Instruction) : Nat := (i.val >>> 21) &&& 0x1F

/-- D is bit 11..15. -/
def Instruction.d (i : Instruction) : Nat := (i.val >>> 11) &&& 0x1F

/-- Immediate shift is bit 6..10. -/
def Instruction.immediate_shift (i : Instruction) : Nat := (i.val >>> 6) &&& 0x1F

/-- Immediate jump values are bit 0..25 (shifted left by two). -/
def Instruction.immediate_jump (i : Instruction) : Nat := (i.val &&& 0x3FFFFFF) <<< 2

/-- Coprocessor opcode, bit 21..25. -/
def Instruction.coprocessor_opcode (i : Instruction) : Nat := i.s

structure Coprocessor where
  status : Nat  -- system status register
  cause : Nat   -- describes the most recently recognized exception
  epc : Nat     -- return address from trap

def Coprocessor.new : Coprocessor :=
  { status := 0, cause := 0, epc := 0 }

def Coprocessor.is_cache_isolated (c : Coprocessor) : Bool :=
  c.status &&& 0x10000 != 0

structure CPU where
  registers : Nat → Nat  -- R0..R31
  current_pc : Nat       -- the currently executing instruction
  pc : Nat               -- points to the next instruction
  next_pc : Nat          -- points to the following instruction after pc
  hi : Nat
  lo : Nat
  mmu : MMU
  cop0 : Coprocessor
  next_load : Nat × Nat  -- temporarily stored loaded value between instructions
  instruction_cache : Nat → InstructionCacheLine  -- 256 lines

def START_PC : Nat := 0xBFC00000

def CPU.new (mmu : MMU) : CPU :=
  { registers := fun _ => 0
    current_pc := 0
    pc := START_PC
    next_pc := (START_PC + 4) % 4294967296
    hi := 0
    lo := 0
    mmu := mmu
    cop0 := Coprocessor.new
    next_load := (0, 0)
    instruction_cache := fun _ => InstructionCacheLine.new }

/-- CPU::setup_load: retire the pending load unless it targets the same
register, then record the new pending load. -/
def CPU.setup_load (c : CPU) (register value : Nat) : CPU :=
  let c :=
    if c.next_load.fst ≠ register then
      { c with registers := Function.update c.registers c.next_load.fst c.next_load.snd }
    else c
  { c with next_load := (register, value) }

/-- CPU::finish_load: retire the pending load into its register and reset the
pending slot to `(0, 0)`. -/
def CPU.finish_load (c : CPU) : CPU :=
  { c with
    registers := Function.update c.registers c.next_load.fst c.next_load.snd
    next_load := (0, 0) }

/-- CPU::store_instruction_cache.  The source copies the selected line into a
local variable (`InstructionCacheLine` is a `Copy` type), mutates the copy,
and never stores it back into `self.instruction_cache`; the CPU state is
therefore unchanged. -/
def CPU.store_instruction_cache (c : CPU) (address value : Nat) : CPU :=
  let line := (address >>> 4) &&& 0xFF
  let index := (address >>> 2) &&& 3
  let cache_line := c.instruction_cache line
  let cache_line :=
    if c.mmu.is_instruction_cache_tag_test_mode then
      { cache_line with tag := value }
    else
      { cache_line with data := Function.update cache_line.data index value }
  let _dropped := { cache_line with valid := 4 }
  c

/-- The cache refill loop of CPU::load_instruction: starting at the requested
word, read words `index..3` of the line from the MMU into a copy of the
line's data array. -/
def refillCacheData (m : MMU) (pc index : Nat) (data : Nat → Nat) : Option (Nat → Nat) :=
  (List.range (4 - index)).foldlM
    (fun d k =>
      match m.read ((pc + 4 * k) % 4294967296) 4 with
      | some w => some (Function.update d (index + k) w)
      | none => none)
    data

/-- CPU::load_instruction.  Note `&self`: the refilled line is a local copy
that is never written back into the instruction cache. -/
def CPU.load_instruction (c : CPU) : Option Instruction :=
  if c.mmu.is_instruction_cache_enabled = true ∧ c.pc < 0xA0000000 then
    -- cache tag is bit 12..30
    let tag := c.pc &&& 0x7FFFF000
    -- line is bit 4..11
    let lineIdx := (c.pc >>> 4) &&& 0xFF
    -- word index is bit 2..3
    let index := (c.pc >>> 2) &&& 3
    let line := c.instruction_cache lineIdx
    if tag ≠ line.tag ∨ line.valid > index ∨ line.valid > 4 then
      match refillCacheData c.mmu c.pc index line.data with
      | some data => some { val := data index }
      | none => none
    else
      some { val := line.data index }
  else
    match c.mmu.read c.pc 4 with
    | some word => some { val := word }
    | none => none

/-- Wrapping 32-bit addition (Rust `u32::wrapping_add`). -/
def wrapAdd (a b : Nat) : Nat := (a + b) % 4294967296

/-- Wrapping 32-bit subtraction (Rust `u32::wrapping_sub`). -/
def wrapSub (a b : Nat) : Nat :=
  (a % 4294967296 + (4294967296 - b % 4294967296)) % 4294967296

/-- CPU::execute, acting on the state after the PC pipeline rotation of
CPU::step.  Every `panic!` arm of the source (unimplemented instructions,
checked-arithmetic overflow, division by zero) is `none`. -/
def CPU.execute (c : CPU) (i : Instruction) : Option CPU :=
  if i.opcode = 0 then
    if i.secondary_opcode = 0x00 then -- SLL
      let value := (c.registers i.t <<< i.immediate_shift) % 4294967296
      let c := c.finish_load
      some { c with registers := Function.update c.registers i.d value }
    else if i.secondary_opcode = 0x02 then -- SRL
      let value := c.registers i.t >>> i.immediate_shift
      let c := c.finish_load
      some { c with registers := Function.update c.registers i.d value }
    else if i.secondary_opcode = 0x03 then -- SRA
      let value := toU32 ((toI32 (c.registers i.t)).fdiv (2 ^ i.immediate_shift))
      let c := c.finish_load
      some { c with registers := Function.update c.registers i.d value }
    else if i.secondary_opcode = 0x04 then none -- SSLV
    else if i.secondary_opcode = 0x06 then -- SRLV
      let value := c.registers i.t >>> (c.registers i.s &&& 0x1F)
      let c := c.finish_load
      some { c with registers := Function.update c.registers i.d value }
    else if i.secondary_opcode = 0x07 then none -- SRAV
    else if i.secondary_opcode = 0x08 then -- JR
      let next := c.registers i.s
      let c := c.finish_load
      some { c with next_pc := next }
    else if i.secondary_opcode = 0x09 then -- JALR
      let return_address := c.next_pc
      let c := { c with next_pc := c.registers i.s }
      let c := c.finish_load
      some { c with registers := Function.update c.registers i.d return_address }
    else if i.secondary_opcode = 0x0C then none -- SYSCALL
    else if i.secondary_opcode = 0x0D then none -- BREAK
    else if i.secondary_opcode = 0x10 then -- MFHI
      let c := c.finish_load
      some { c with registers := Function.update c.registers i.d c.hi }
    else if i.secondary_opcode = 0x11 then none -- MTHI
    else if i.secondary_opcode = 0x12 then -- MFLO
      let c := c.finish_load
      some { c with registers := Function.update c.registers i.d c.lo }
    else if i.secondary_opcode = 0x13 then none -- MTLO
    else if i.secondary_opcode = 0x18 then none -- MULT
    else if i.secondary_opcode = 0x19 then none -- MULTU
    else if i.secondary_opcode = 0x1A then -- DIV
      let numerator := toI32 (c.registers i.s)
      let denominator := toI32 (c.registers i.t)
      let c := c.finish_load
      if denominator = 0 then none -- "Division by zero"
      else if denominator = -1 ∧ toU32 numerator = 0x80000000 then none -- "Division by -1"
      else
        some { c with
          hi := toU32 (numerator.tmod denominator)
          lo := toU32 (numerator.tdiv denominator) }
    else if i.secondary_opcode = 0x1B then -- DIVU
      let numerator := c.registers i.s
      let denominator := c.registers i.t
      let c := c.finish_load
      if denominator = 0 then none -- "Division by zero"
      else some { c with hi := numerator % denominator, lo := numerator / denominator }
    else if i.secondary_opcode = 0x20 then -- ADD (checked)
      let a := toI32 (c.registers i.s)
      let b := toI32 (c.registers i.t)
      let c := c.finish_load
      if -2147483648 ≤ a + b ∧ a + b ≤ 2147483647 then
        some { c with registers := Function.update c.registers i.d (toU32 (a + b)) }
      else none -- "Overflow not handled"
    else if i.secondary_opcode = 0x21 then -- ADDU
      let value := wrapAdd (c.registers i.s) (c.registers i.t)
      let c := c.finish_load
      some { c with registers := Function.update c.registers i.d value }
    else if i.secondary_opcode = 0x22 then -- SUB (checked)
      let a := toI32 (c.registers i.s)
      let b := toI32 (c.registers i.t)
      let c := c.finish_load
      if -2147483648 ≤ a - b ∧ a - b ≤ 2147483647 then
        some { c with registers := Function.update c.registers i.d (toU32 (a - b)) }
      else none -- "Underflow not handled"
    else if i.secondary_opcode = 0x23 then -- SUBU
      let a := c.registers i.s
      let b := c.registers i.t
      let c := c.finish_load
      some { c with registers := Function.update c.registers i.d (wrapSub a b) }
    else if i.secondary_opcode = 0x24 then -- AND
      let value := c.registers i.s &&& c.registers i.t
      let c := c.finish_load
      some { c with registers := Function.update c.registers i.d value }
    else if i.secondary_opcode = 0x25 then -- OR
      let value := c.registers i.s ||| c.registers i.t
      let c := c.finish_load
      some { c with registers := Function.update c.registers i.d value }
    else if i.secondary_opcode = 0x26 then none -- XOR
    else if i.secondary_opcode = 0x27 then none -- NOR
    else if i.secondary_opcode = 0x2A then -- SLT
      let value := if toI32 (c.registers i.s) < toI32 (c.registers i.t) then 1 else 0
      let c := c.finish_load
      some { c with registers := Function.update c.registers i.d value }
    else if i.secondary_opcode = 0x2B then -- SLTU
      let value := if c.registers i.s < c.registers i.t then 1 else 0
      let c := c.finish_load
      some { c with registers := Function.update c.registers i.d value }
    else none -- "Invalid instruction"
  else if i.opcode = 1 then
    if i.t = 0 then -- BLTZ
      let c :=
        if toI32 (c.registers i.s) < 0 then
          { c with next_pc := wrapAdd c.pc ((i.immediate_sign_extended <<< 2) % 4294967296) }
        else c
      some c.finish_load
    else if i.t = 1 then -- BGEZ
      let c :=
        if 0 ≤ toI32 (c.registers i.s) then
          { c with next_pc := wrapAdd c.pc ((i.immediate_sign_extended <<< 2) % 4294967296) }
        else c
      some c.finish_load
    else none -- BLTZAL, BGEZAL, unsupported branching instructions
  else if i.opcode = 2 then -- J
    let c := { c with next_pc := (c.pc &&& 0xF0000000) ||| i.immediate_jump }
    some c.finish_load
  else if i.opcode = 3 then -- JAL
    let return_address := c.next_pc
    let c := { c with next_pc := (c.pc &&& 0xF0000000) ||| i.immediate_jump }
    let c := c.finish_load
    some { c with registers := Function.update c.registers 31 return_address }
  else if i.opcode = 4 then -- BEQ
    let c :=
      if c.registers i.s = c.registers i.t then
        { c with next_pc := wrapAdd c.pc ((i.immediate_sign_extended <<< 2) % 4294967296) }
      else c
    some c.finish_load
  else if i.opcode = 5 then -- BNE
    let c :=
      if c.registers i.s ≠ c.registers i.t then
        { c with next_pc := wrapAdd c.pc ((i.immediate_sign_extended <<< 2) % 4294967296) }
      else c
    some c.finish_load
  else if i.opcode = 6 then -- BLEZ
    let c :=
      if toI32 (c.registers i.s) ≤ 0 then
        { c with next_pc := wrapAdd c.pc ((i.immediate_sign_extended <<< 2) % 4294967296) }
      else c
    some c.finish_load
  else if i.opcode = 7 then -- BGTZ
    let c :=
      if 0 < toI32 (c.registers i.s) then
        { c with next_pc := wrapAdd c.pc ((i.immediate_sign_extended <<< 2) % 4294967296) }
      else c
    some c.finish_load
  else if i.opcode = 8 then -- ADDI (checked)
    let immediate := toI32 i.immediate_sign_extended
    let a := toI32 (c.registers i.s)
    let c := c.finish_load
    if -2147483648 ≤ a + immediate ∧ a + immediate ≤ 2147483647 then
      some { c with registers := Function.update c.registers i.t (toU32 (a + immediate)) }
    else none -- "Overflow not handled"
  else if i.opcode = 9 then -- ADDIU
    let value := wrapAdd (c.registers i.s) i.immediate_sign_extended
    let c := c.finish_load
    some { c with registers := Function.update c.registers i.t value }
  else if i.opcode = 10 then -- SLTI
    let value := if toI32 (c.registers i.s) < toI32 i.immediate_sign_extended then 1 else 0
    let c := c.finish_load
    some { c with registers := Function.update c.registers i.t value }
  else if i.opcode = 11 then -- SLTIU
    let value := if c.registers i.s < i.immediate_sign_extended then 1 else 0
    let c := c.finish_load
    some { c with registers := Function.update c.registers i.t value }
  else if i.opcode = 12 then -- ANDI
    let value := c.registers i.s &&& i.immediate
    let c := c.finish_load
    some { c with registers := Function.update c.registers i.t value }
  else if i.opcode = 13 then -- ORI
    let value := c.registers i.s ||| i.immediate
    let c := c.finish_load
    some { c with registers := Function.update c.registers i.t value }
  else if i.opcode = 14 then none -- XORI
  else if i.opcode = 15 then -- LUI
    let value := i.immediate <<< 16
    let c := c.finish_load
    some { c with registers := Function.update c.registers i.t value }
  else if i.opcode = 16 then -- COP0
    if i.coprocessor_opcode = 0 then -- MFC0
      let r := i.t
      let cop0_r := i.d
      if cop0_r = 3 ∨ cop0_r = 5 ∨ cop0_r = 6 ∨ cop0_r = 7 ∨ cop0_r = 9 ∨ cop0_r = 11 then
        some c -- no-op, ignoring breakpoints
      else if cop0_r = 12 then
        some (c.setup_load r c.cop0.status)
      else none -- "Unsupported COP0 register" (includes register 13)
    else if i.coprocessor_opcode = 4 then -- MTC0
      let cop0_r := i.d
      let value := c.registers i.t
      let c := c.finish_load
      if cop0_r = 3 ∨ cop0_r = 5 ∨ cop0_r = 6 ∨ cop0_r = 7 ∨ cop0_r = 9 ∨ cop0_r = 11 then
        some c -- no-op, ignoring breakpoints
      else if cop0_r = 12 then
        some { c with cop0 := { c.cop0 with status := value } }
      else if cop0_r = 13 then
        some { c with cop0 := { c.cop0 with
          cause := (c.cop0.cause &&& 0xFFFFFCFF) ||| (value &&& 0x300) } }
      else none -- "Unsupported COP0 register"
    else if i.coprocessor_opcode = 16 then -- RFE
      let c := c.finish_load
      let mode := c.cop0.status &&& 0x3F
      some { c with cop0 := { c.cop0 with
        status := (c.cop0.status &&& 0xFFFFFFF0) ||| (mode >>> 2) } }
    else none -- unhandled coprocessor opcode
  else if i.opcode = 17 then none -- COP1
  else if i.opcode = 18 then none -- COP2
  else if i.opcode = 19 then none -- COP3
  else if i.opcode = 32 then -- LB
    let address := wrapAdd (c.registers i.s) i.immediate_sign_extended
    match c.mmu.read address 1 with
    | some value => some (c.setup_load i.t (signExtend8 value))
    | none => none
  else if i.opcode = 33 then -- LH
    let address := wrapAdd (c.registers i.s) i.immediate_sign_extended
    match c.mmu.read address 2 with
    | some value => some (c.setup_load i.t (signExtend16 value))
    | none => none
  else if i.opcode = 34 then none -- LWL
  else if i.opcode = 35 then -- LW
    let address := wrapAdd (c.registers i.s) i.immediate_sign_extended
    match c.mmu.read address 4 with
    | some value => some (c.setup_load i.t value)
    | none => none
  else if i.opcode = 36 then -- LBU
    let address := wrapAdd (c.registers i.s) i.immediate_sign_extended
    match c.mmu.read address 1 with
    | some value => some (c.setup_load i.t value)
    | none => none
  else if i.opcode = 37 then -- LHU
    let address := wrapAdd (c.registers i.s) i.immediate_sign_extended
    match c.mmu.read address 2 with
    | some value => some (c.setup_load i.t value)
    | none => none
  else if i.opcode = 38 then none -- LWR
  else if i.opcode = 40 then -- SB
    let address := wrapAdd (c.registers i.s) i.immediate_sign_extended
    let value := c.registers i.t
    let c := c.finish_load
    if c.cop0.is_cache_isolated = true then
      some (c.store_instruction_cache address value)
    else
      match c.mmu.write address 1 value with
      | some m => some { c with mmu := m }
      | none => none
  else if i.opcode = 41 then -- SH
    let address := wrapAdd (c.registers i.s) i.immediate_sign_extended
    let value := c.registers i.t
    let c := c.finish_load
    if c.cop0.is_cache_isolated = true then
      some (c.store_instruction_cache address value)
    else
      match c.mmu.write address 2 value with
      | some m => some { c with mmu := m }
      | none => none
  else if i.opcode = 43 then -- SW
    let address := wrapAdd (c.registers i.s) i.immediate_sign_extended
    let value := c.registers i.t
    let c := c.finish_load
    if c.cop0.is_cache_isolated = true then
      some (c.store_instruction_cache address value)
    else
      match c.mmu.write address 4 value with
      | some m => some { c with mmu := m }
      | none => none
  else none -- SWL, SWR, LWCn, SWCn, invalid instructions

/-- CPU::step: fetch, rotate the PC triple, execute, advance peripherals. -/
def CPU.step (c : CPU) : Option CPU :=
  match c.load_instruction with
  | none => none
  | some instruction =>
    let c := { c with
      current_pc := c.pc
      pc := c.next_pc
      next_pc := (c.next_pc + 4) % 4294967296 }
    match c.execute instruction with
    | none => none
    | some c => some { c with mmu := c.mmu.step 1 }

/-! ## Concrete fixtures used by the claim theorems

The hand-assembled programs are byte lists placed at the reset address
0xBFC00000 (the BIOS region), little-endian. -/

/-- ADDIU R1, R0, 5 (0x24010005) followed by ADDU R0, R1, R1 (0x00210021). -/
def biosC1 : List Nat := [0x05, 0x00, 0x01, 0x24, 0x21, 0x00, 0x21, 0x00]

/-- J 0xBFC00100 (0x0BF00040) followed by ADDIU R1, R0, 5 (0x24010005). -/
def biosC6 : List Nat := [0x40, 0x00, 0xF0, 0x0B, 0x05, 0x00, 0x01, 0x24]

/-- A single ADDIU R1, R0, 5 (0x24010005). -/
def biosC6W : List Nat := [0x05, 0x00, 0x01, 0x24]

/-- A reset-state CPU whose COP0 status has bit 16 (cache isolation) set. -/
def cpuIsolated : CPU :=
  { CPU.new (MMU.new []) with cop0 := { status := 0x10000, cause := 0, epc := 0 } }

/-- A reset-state CPU whose COP0 status is 0x30 (bits 4 and 5 set). -/
def cpuStatus30 : CPU :=
  { CPU.new (MMU.new []) with cop0 := { status := 0x30, cause := 0, epc := 0 } }

/-- An MMU with the instruction cache enabled (cache_control bit 0x800) and
the word 0x11223344 stored at RAM address 0x100, built through MMU.write. -/
def mmuCacheOn : Option MMU :=
  ((MMU.new []).write 0xFFFE0130 4 0x800).bind (fun m => m.write 0x100 4 0x11223344)

/-! ## Claim theorems -/

/-- C1.  The claim states that after every executed instruction R0 reads as 0:
writes targeting R0 leave R0 equal to 0.  The code has no special case for
register 0: running ADDIU R1, R0, 5 and then ADDU R0, R1, R1 from the reset
state leaves R0 holding 10, not 0, so the claim is false of the code (the
spec's stated observable contract R0 == 0 is the intent and the code a slip). -/
theorem c1_r0_not_zero_after_addu :
    (((CPU.new (MMU.new biosC1)).step.bind CPU.step).map (fun c => c.registers 0))
      = some 10 ∧ (10 : Nat) ≠ 0 := by decide

/-- C2.  The claim states that a fetch miss with the cache enabled records the
refilled line in the cache, so that repeated fetches at the same address
return the same word even after the underlying RAM is modified.  In the code
load_instruction takes `&self` and refills only a local copy of the line, so
nothing is recorded: with the cache enabled, a fetch at 0x100 returns
0x11223344, and after the underlying RAM word is overwritten with 0x55667788
the very next fetch at the same address returns the new word, not the cached
one. -/
theorem c2_fetch_not_cached :
    ((do
      let m ← mmuCacheOn
      let c : CPU := { CPU.new m with pc := 0x100 }
      let w1 ← c.load_instruction
      let m2 ← c.mmu.write 0x100 4 0x55667788
      let c2 : CPU := { c with mmu := m2 }
      let w2 ← c2.load_instruction
      pure (w1.val, w2.val) : Option (Nat × Nat))
      = some (0x11223344, 0x55667788)) ∧ (0x11223344 : Nat) ≠ 0x55667788 := by decide

/-- C3.  The claim states that an isolated store updates the selected cache
line and sets its `valid` field to 4.  store_instruction_cache mutates a local
copy of the line (`InstructionCacheLine` is Copy) and never writes it back:
executing SW R0, 0(R0) with status bit 16 set leaves line 0 untouched, its
`valid` field still the reset value 0xFFFF rather than 4. -/
theorem c3_isolated_store_does_not_invalidate :
    ((cpuIsolated.execute { val := 0xAC000000 }).map
      (fun c => ((c.instruction_cache 0).valid, (c.instruction_cache 0).tag,
                 (c.instruction_cache 0).data 0))
      = some (0xFFFF, 0, 0)) ∧ (0xFFFF : Nat) ≠ 4 := by decide

/-- C4 counterexample.  The claim states that RFE sets the low 6 bits of
status to `(status & 0x3F) >> 2`, so for status = 0x30 the new status would be
0x0C.  The code masks with `!0xF`, keeping bits 4 and 5: it produces 0x3C. -/
theorem c4_counterexample :
    ((cpuStatus30.execute { val := 0x42000010 }).map (fun c => c.cop0.status)
      = some 0x3C)
      ∧ (0x3C : Nat) &&& 0x3F ≠ ((0x30 : Nat) &&& 0x3F) >>> 2 := by decide

/-- C6 counterexample.  The claim states that for every reachable state, a
step executing an opcode that does not write next_pc ends with
`next_pc = current_pc + 8`.  Reachable counterexample: from reset, execute
J 0xBFC00100 and then (in the branch delay slot) ADDIU R1, R0, 5, which does
not write next_pc.  Afterwards current_pc = 0xBFC00004 and
next_pc = 0xBFC00104 ≠ 0xBFC00004 + 8. -/
theorem c6_counterexample :
    (((CPU.new (MMU.new biosC6)).step.bind CPU.step).map
      (fun c => (c.current_pc, c.next_pc))
      = some (0xBFC00004, 0xBFC00104)) ∧ (0xBFC00104 : Nat) ≠ 0xBFC00004 + 8 := by
  decide

/-- C8 counterexample.  The claim states that MFC0 with COP0 register 13 is
accepted and not fatal.  In the code the MFC0 arm supports only registers
3, 5, 6, 7, 9, 11 and 12; register 13 falls into the
"Unsupported COP0 register" panic, modelled as `none`. -/
theorem c8_counterexample :
    ((CPU.new (MMU.new [])).execute { val := 0x40016800 }).isNone = true := by decide


/-! ## Helper lemmas -/

lemma rfe_low (s : Nat) :
    ((s &&& 0xFFFFFFF0) ||| ((s &&& 0x3F) >>> 2)) &&& 0xF = (s &&& 0x3F) >>> 2 := by
  have h1 : (0xF : Nat) = 2 ^ 4 - 1 := by norm_num
  have h2 : (0x3F : Nat) = 2 ^ 6 - 1 := by norm_num
  have h3 : (0xFFFFFFF0 : Nat) = (2 ^ 28 - 1) <<< 4 := by decide
  apply Nat.eq_of_testBit_eq
  intro j
  simp only [h1, h2, h3, Nat.testBit_land, Nat.testBit_lor, Nat.testBit_shiftRight,
    Nat.testBit_shiftLeft, Nat.testBit_two_pow_sub_one]
  rcases Nat.lt_or_ge j 4 with hj | hj
  · have h4 : ¬(4 ≤ j) := by omega
    simp [h4, hj, ge_iff_le]
  · have h4 : ¬(j < 4) := by omega
    have h5 : ¬(2 + j < 6) := by omega
    simp [h4, h5]

lemma rfe_high (s : Nat) (hs : s < 4294967296) :
    ((s &&& 0xFFFFFFF0) ||| ((s &&& 0x3F) >>> 2)) >>> 4 = s >>> 4 := by
  have h2 : (0x3F : Nat) = 2 ^ 6 - 1 := by norm_num
  have h3 : (0xFFFFFFF0 : Nat) = (2 ^ 28 - 1) <<< 4 := by decide
  apply Nat.eq_of_testBit_eq
  intro j
  simp only [h2, h3, Nat.testBit_land, Nat.testBit_lor, Nat.testBit_shiftRight,
    Nat.testBit_shiftLeft, Nat.testBit_two_pow_sub_one, ge_iff_le]
  have h4 : (4 : Nat) ≤ 4 + j := by omega
  have h5 : ¬(2 + (4 + j) < 6) := by omega
  have h6 : 4 + j - 4 = j := by omega
  rcases Nat.lt_or_ge j 28 with hj | hj
  · simp [h4, h5, h6, hj]
  · have h7 : s.testBit (4 + j) = false := by
      apply Nat.testBit_lt_two_pow
      calc s < 4294967296 := hs
        _ ≤ 2 ^ (4 + j) := by
          have h8 : (32 : Nat) ≤ 4 + j := by omega
          calc (4294967296 : Nat) = 2 ^ 32 := by norm_num
            _ ≤ 2 ^ (4 + j) := Nat.pow_le_pow_right (by norm_num) h8
    simp [h4, h5, h6, h7]

lemma testBit_high_false (a j k : Nat) (ha : a < 2 ^ k) (hj : k ≤ j) :
    a.testBit j = false :=
  Nat.testBit_lt_two_pow (lt_of_lt_of_le ha (Nat.pow_le_pow_right (by norm_num) hj))

lemma kuseg_mask (a : Nat) (h : a < 0x20000000) : a &&& 0xFFFFFFFF = a := by
  have h32 : (0xFFFFFFFF : Nat) = 2 ^ 32 - 1 := by norm_num
  have h29 : a < 2 ^ 29 := by omega
  apply Nat.eq_of_testBit_eq
  intro j
  simp only [Nat.testBit_land, h32, Nat.testBit_two_pow_sub_one]
  rcases Nat.lt_or_ge j 32 with hj | hj
  · simp [hj]
  · simp [Nat.not_lt.mpr hj, testBit_high_false a j 29 h29 (by omega)]

lemma kuseg_shift (a : Nat) (h : a < 0x20000000) : a >>> 29 = 0 := by
  rw [Nat.shiftRight_eq_div_pow]
  exact Nat.div_eq_of_lt (by norm_num at h ⊢; omega)

lemma kseg0_shift (a : Nat) (h : a < 0x20000000) : (a ||| 0x80000000) >>> 29 = 4 := by
  have h31 : (0x80000000 : Nat) = 2 ^ 31 := by norm_num
  have h29 : a < 2 ^ 29 := by omega
  apply Nat.eq_of_testBit_eq
  intro j
  rw [Nat.testBit_shiftRight]
  simp only [h31, Nat.testBit_lor, Nat.testBit_two_pow,
    testBit_high_false a (29 + j) 29 h29 (by omega)]
  have h4 : (4 : Nat) = 2 ^ 2 := by norm_num
  rw [h4, Nat.testBit_two_pow]
  simp only [Bool.false_or, decide_eq_decide]
  omega

lemma kseg0_mask (a : Nat) (h : a < 0x20000000) : (a ||| 0x80000000) &&& 0x7FFFFFFF = a := by
  have h31 : (0x80000000 : Nat) = 2 ^ 31 := by norm_num
  have hm : (0x7FFFFFFF : Nat) = 2 ^ 31 - 1 := by norm_num
  have h29 : a < 2 ^ 29 := by omega
  apply Nat.eq_of_testBit_eq
  intro j
  simp only [Nat.testBit_land, Nat.testBit_lor, h31, hm, Nat.testBit_two_pow,
    Nat.testBit_two_pow_sub_one]
  rcases Nat.lt_or_ge j 31 with hj | hj
  · simp [hj]
    intro hh
    exact absurd hh (by omega)
  · simp [Nat.not_lt.mpr hj, testBit_high_false a j 29 h29 (by omega)]

lemma kseg1_shift (a : Nat) (h : a < 0x20000000) : (a ||| 0xA0000000) >>> 29 = 5 := by
  have hsplit : (0xA0000000 : Nat) = 2 ^ 31 ||| 2 ^ 29 := by decide
  have h29 : a < 2 ^ 29 := by omega
  apply Nat.eq_of_testBit_eq
  intro j
  rw [Nat.testBit_shiftRight]
  have h5 : (5 : Nat) = 2 ^ 2 ||| 2 ^ 0 := by decide
  rw [hsplit, h5]
  simp only [Nat.testBit_lor, Nat.testBit_two_pow,
    testBit_high_false a (29 + j) 29 h29 (by omega)]
  simp only [Bool.false_or]
  rcases eq_or_ne j 0 with h0 | h0
  · subst h0; simp
  · rcases eq_or_ne j 2 with h2 | h2
    · subst h2; simp
    · have n1 : ¬(31 = 29 + j) := by omega
      have n2 : ¬(2 = j) := by omega
      have n3 : ¬(0 = j) := by omega
      have n4 : ¬(29 = 29 + j) := by omega
      simp [n1, n2, n3, n4]

lemma kseg1_mask (a : Nat) (h : a < 0x20000000) : (a ||| 0xA0000000) &&& 0x1FFFFFFF = a := by
  have hsplit : (0xA0000000 : Nat) = 2 ^ 31 ||| 2 ^ 29 := by decide
  have hm : (0x1FFFFFFF : Nat) = 2 ^ 29 - 1 := by norm_num
  have h29 : a < 2 ^ 29 := by omega
  apply Nat.eq_of_testBit_eq
  intro j
  rw [hsplit, hm]
  simp only [Nat.testBit_land, Nat.testBit_lor, Nat.testBit_two_pow,
    Nat.testBit_two_pow_sub_one]
  rcases Nat.lt_or_ge j 29 with hj | hj
  · simp [hj]
    intro hh
    rcases hh with hh | hh <;> exact absurd hh (by omega)
  · simp [Nat.not_lt.mpr hj, testBit_high_false a j 29 h29 (by omega)]

set_option maxHeartbeats 2000000 in
lemma execute_preserves_pc (c : CPU) (i : Instruction) (c' : CPU)
    (h : c.execute i = some c') : c'.pc = c.pc ∧ c'.current_pc = c.current_pc := by
  unfold CPU.execute at h
  by_cases hc1 : i.opcode = 0
  · simp [hc1] at h
    by_cases hc2 : i.secondary_opcode = 0
    · simp [hc2] at h
      all_goals try (exact ⟨rfl, rfl⟩)
      all_goals try (refine ⟨?_, ?_⟩ <;>
        first
          | rfl
          | (dsimp only [CPU.setup_load]; split <;> rfl))
      all_goals try (repeat' first
        | split at h
        | (dsimp only at h; split at h))
      all_goals try (repeat obtain ⟨-, h⟩ := h)
      all_goals try (injection h with h)
      all_goals try (subst h)
      all_goals first
        | exact Option.noConfusion h
        | exact ⟨rfl, rfl⟩
        | (refine ⟨?_, ?_⟩ <;>
            first
              | rfl
              | (dsimp only [CPU.setup_load]; split <;> rfl))
    · simp [hc2] at h
      by_cases hc3 : i.secondary_opcode = 2
      · simp [hc3] at h
        all_goals try (exact ⟨rfl, rfl⟩)
        all_goals try (refine ⟨?_, ?_⟩ <;>
          first
            | rfl
            | (dsimp only [CPU.setup_load]; split <;> rfl))
        all_goals try (repeat' first
          | split at h
          | (dsimp only at h; split at h))
        all_goals try (repeat obtain ⟨-, h⟩ := h)
        all_goals try (injection h with h)
        all_goals try (subst h)
        all_goals first
          | exact Option.noConfusion h
          | exact ⟨rfl, rfl⟩
          | (refine ⟨?_, ?_⟩ <;>
              first
                | rfl
                | (dsimp only [CPU.setup_load]; split <;> rfl))
      · simp [hc3] at h
        by_cases hc4 : i.secondary_opcode = 3
        · simp [hc4] at h
          all_goals try (exact ⟨rfl, rfl⟩)
          all_goals try (refine ⟨?_, ?_⟩ <;>
            first
              | rfl
              | (dsimp only [CPU.setup_load]; split <;> rfl))
          all_goals try (repeat' first
            | split at h
            | (dsimp only at h; split at h))
          all_goals try (repeat obtain ⟨-, h⟩ := h)
          all_goals try (injection h with h)
          all_goals try (subst h)
          all_goals first
            | exact Option.noConfusion h
            | exact ⟨rfl, rfl⟩
            | (refine ⟨?_, ?_⟩ <;>
                first
                  | rfl
                  | (dsimp only [CPU.setup_load]; split <;> rfl))
        · simp [hc4] at h
          by_cases hc5 : i.secondary_opcode = 4
          · simp [hc5] at h
            all_goals try (exact ⟨rfl, rfl⟩)
            all_goals try (refine ⟨?_, ?_⟩ <;>
              first
                | rfl
                | (dsimp only [CPU.setup_load]; split <;> rfl))
            all_goals try (repeat' first
              | split at h
              | (dsimp only at h; split at h))
            all_goals try (repeat obtain ⟨-, h⟩ := h)
            all_goals try (injection h with h)
            all_goals try (subst h)
            all_goals first
              | exact Option.noConfusion h
              | exact ⟨rfl, rfl⟩
              | (refine ⟨?_, ?_⟩ <;>
                  first
                    | rfl
                    | (dsimp only [CPU.setup_load]; split <;> rfl))
          · simp [hc5] at h
            by_cases hc6 : i.secondary_opcode = 6
            · simp [hc6] at h
              all_goals try (exact ⟨rfl, rfl⟩)
              all_goals try (refine ⟨?_, ?_⟩ <;>
                first
                  | rfl
                  | (dsimp only [CPU.setup_load]; split <;> rfl))
              all_goals try (repeat' first
                | split at h
                | (dsimp only at h; split at h))
              all_goals try (repeat obtain ⟨-, h⟩ := h)
              all_goals try (injection h with h)
              all_goals try (subst h)
              all_goals first
                | exact Option.noConfusion h
                | exact ⟨rfl, rfl⟩
                | (refine ⟨?_, ?_⟩ <;>
                    first
                      | rfl
                      | (dsimp only [CPU.setup_load]; split <;> rfl))
            · simp [hc6] at h
              by_cases hc7 : i.secondary_opcode = 7
              · simp [hc7] at h
                all_goals try (exact ⟨rfl, rfl⟩)
                all_goals try (refine ⟨?_, ?_⟩ <;>
                  first
                    | rfl
                    | (dsimp only [CPU.setup_load]; split <;> rfl))
                all_goals try (repeat' first
                  | split at h
                  | (dsimp only at h; split at h))
                all_goals try (repeat obtain ⟨-, h⟩ := h)
                all_goals try (injection h with h)
                all_goals try (subst h)
                all_goals first
                  | exact Option.noConfusion h
                  | exact ⟨rfl, rfl⟩
                  | (refine ⟨?_, ?_⟩ <;>
                      first
                        | rfl
                        | (dsimp only [CPU.setup_load]; split <;> rfl))
              · simp [hc7] at h
                by_cases hc8 : i.secondary_opcode = 8
                · simp [hc8] at h
                  all_goals try (exact ⟨rfl, rfl⟩)
                  all_goals try (refine ⟨?_, ?_⟩ <;>
                    first
                      | rfl
                      | (dsimp only [CPU.setup_load]; split <;> rfl))
                  all_goals try (repeat' first
                    | split at h
                    | (dsimp only at h; split at h))
                  all_goals try (repeat obtain ⟨-, h⟩ := h)
                  all_goals try (injection h with h)
                  all_goals try (subst h)
                  all_goals first
                    | exact Option.noConfusion h
                    | exact ⟨rfl, rfl⟩
                    | (refine ⟨?_, ?_⟩ <;>
                        first
                          | rfl
                          | (dsimp only [CPU.setup_load]; split <;> rfl))
                · simp [hc8] at h
                  by_cases hc9 : i.secondary_opcode = 9
                  · simp [hc9] at h
                    all_goals try (exact ⟨rfl, rfl⟩)
                    all_goals try (refine ⟨?_, ?_⟩ <;>
                      first
                        | rfl
                        | (dsimp only [CPU.setup_load]; split <;> rfl))
                    all_goals try (repeat' first
                      | split at h
                      | (dsimp only at h; split at h))
                    all_goals try (repeat obtain ⟨-, h⟩ := h)
                    all_goals try (injection h with h)
                    all_goals try (subst h)
                    all_goals first
                      | exact Option.noConfusion h
                      | exact ⟨rfl, rfl⟩
                      | (refine ⟨?_, ?_⟩ <;>
                          first
                            | rfl
                            | (dsimp only [CPU.setup_load]; split <;> rfl))
                  · simp [hc9] at h
                    by_cases hc10 : i.secondary_opcode = 12
                    · simp [hc10] at h
                      all_goals try (exact ⟨rfl, rfl⟩)
                      all_goals try (refine ⟨?_, ?_⟩ <;>
                        first
                          | rfl
                          | (dsimp only [CPU.setup_load]; split <;> rfl))
                      all_goals try (repeat' first
                        | split at h
                        | (dsimp only at h; split at h))
                      all_goals try (repeat obtain ⟨-, h⟩ := h)
                      all_goals try (injection h with h)
                      all_goals try (subst h)
                      all_goals first
                        | exact Option.noConfusion h
                        | exact ⟨rfl, rfl⟩
                        | (refine ⟨?_, ?_⟩ <;>
                            first
                              | rfl
                              | (dsimp only [CPU.setup_load]; split <;> rfl))
                    · simp [hc10] at h
                      by_cases hc11 : i.secondary_opcode = 13
                      · simp [hc11] at h
                        all_goals try (exact ⟨rfl, rfl⟩)
                        all_goals try (refine ⟨?_, ?_⟩ <;>
                          first
                            | rfl
                            | (dsimp only [CPU.setup_load]; split <;> rfl))
                        all_goals try (repeat' first
                          | split at h
                          | (dsimp only at h; split at h))
                        all_goals try (repeat obtain ⟨-, h⟩ := h)
                        all_goals try (injection h with h)
                        all_goals try (subst h)
                        all_goals first
                          | exact Option.noConfusion h
                          | exact ⟨rfl, rfl⟩
                          | (refine ⟨?_, ?_⟩ <;>
                              first
                                | rfl
                                | (dsimp only [CPU.setup_load]; split <;> rfl))
                      · simp [hc11] at h
                        by_cases hc12 : i.secondary_opcode = 16
                        · simp [hc12] at h
                          all_goals try (exact ⟨rfl, rfl⟩)
                          all_goals try (refine ⟨?_, ?_⟩ <;>
                            first
                              | rfl
                              | (dsimp only [CPU.setup_load]; split <;> rfl))
                          all_goals try (repeat' first
                            | split at h
                            | (dsimp only at h; split at h))
                          all_goals try (repeat obtain ⟨-, h⟩ := h)
                          all_goals try (injection h with h)
                          all_goals try (subst h)
                          all_goals first
                            | exact Option.noConfusion h
                            | exact ⟨rfl, rfl⟩
                            | (refine ⟨?_, ?_⟩ <;>
                                first
                                  | rfl
                                  | (dsimp only [CPU.setup_load]; split <;> rfl))
                        · simp [hc12] at h
                          by_cases hc13 : i.secondary_opcode = 17
                          · simp [hc13] at h
                            all_goals try (exact ⟨rfl, rfl⟩)
                            all_goals try (refine ⟨?_, ?_⟩ <;>
                              first
                                | rfl
                                | (dsimp only [CPU.setup_load]; split <;> rfl))
                            all_goals try (repeat' first
                              | split at h
                              | (dsimp only at h; split at h))
                            all_goals try (repeat obtain ⟨-, h⟩ := h)
                            all_goals try (injection h with h)
                            all_goals try (subst h)
                            all_goals first
                              | exact Option.noConfusion h
                              | exact ⟨rfl, rfl⟩
                              | (refine ⟨?_, ?_⟩ <;>
                                  first
                                    | rfl
                                    | (dsimp only [CPU.setup_load]; split <;> rfl))
                          · simp [hc13] at h
                            by_cases hc14 : i.secondary_opcode = 18
                            · simp [hc14] at h
                              all_goals try (exact ⟨rfl, rfl⟩)
                              all_goals try (refine ⟨?_, ?_⟩ <;>
                                first
                                  | rfl
                                  | (dsimp only [CPU.setup_load]; split <;> rfl))
                              all_goals try (repeat' first
                                | split at h
                                | (dsimp only at h; split at h))
                              all_goals try (repeat obtain ⟨-, h⟩ := h)
                              all_goals try (injection h with h)
                              all_goals try (subst h)
                              all_goals first
                                | exact Option.noConfusion h
                                | exact ⟨rfl, rfl⟩
                                | (refine ⟨?_, ?_⟩ <;>
                                    first
                                      | rfl
                                      | (dsimp only [CPU.setup_load]; split <;> rfl))
                            · simp [hc14] at h
                              by_cases hc15 : i.secondary_opcode = 19
                              · simp [hc15] at h
                                all_goals try (exact ⟨rfl, rfl⟩)
                                all_goals try (refine ⟨?_, ?_⟩ <;>
                                  first
                                    | rfl
                                    | (dsimp only [CPU.setup_load]; split <;> rfl))
                                all_goals try (repeat' first
                                  | split at h
                                  | (dsimp only at h; split at h))
                                all_goals try (repeat obtain ⟨-, h⟩ := h)
                                all_goals try (injection h with h)
                                all_goals try (subst h)
                                all_goals first
                                  | exact Option.noConfusion h
                                  | exact ⟨rfl, rfl⟩
                                  | (refine ⟨?_, ?_⟩ <;>
                                      first
                                        | rfl
                                        | (dsimp only [CPU.setup_load]; split <;> rfl))
                              · simp [hc15] at h
                                by_cases hc16 : i.secondary_opcode = 24
                                · simp [hc16] at h
                                  all_goals try (exact ⟨rfl, rfl⟩)
                                  all_goals try (refine ⟨?_, ?_⟩ <;>
                                    first
                                      | rfl
                                      | (dsimp only [CPU.setup_load]; split <;> rfl))
                                  all_goals try (repeat' first
                                    | split at h
                                    | (dsimp only at h; split at h))
                                  all_goals try (repeat obtain ⟨-, h⟩ := h)
                                  all_goals try (injection h with h)
                                  all_goals try (subst h)
                                  all_goals first
                                    | exact Option.noConfusion h
                                    | exact ⟨rfl, rfl⟩
                                    | (refine ⟨?_, ?_⟩ <;>
                                        first
                                          | rfl
                                          | (dsimp only [CPU.setup_load]; split <;> rfl))
                                · simp [hc16] at h
                                  by_cases hc17 : i.secondary_opcode = 25
                                  · simp [hc17] at h
                                    all_goals try (exact ⟨rfl, rfl⟩)
                                    all_goals try (refine ⟨?_, ?_⟩ <;>
                                      first
                                        | rfl
                                        | (dsimp only [CPU.setup_load]; split <;> rfl))
                                    all_goals try (repeat' first
                                      | split at h
                                      | (dsimp only at h; split at h))
                                    all_goals try (repeat obtain ⟨-, h⟩ := h)
                                    all_goals try (injection h with h)
                                    all_goals try (subst h)
                                    all_goals first
                                      | exact Option.noConfusion h
                                      | exact ⟨rfl, rfl⟩
                                      | (refine ⟨?_, ?_⟩ <;>
                                          first
                                            | rfl
                                            | (dsimp only [CPU.setup_load]; split <;> rfl))
                                  · simp [hc17] at h
                                    by_cases hc18 : i.secondary_opcode = 26
                                    · simp [hc18] at h
                                      all_goals try (exact ⟨rfl, rfl⟩)
                                      all_goals try (refine ⟨?_, ?_⟩ <;>
                                        first
                                          | rfl
                                          | (dsimp only [CPU.setup_load]; split <;> rfl))
                                      all_goals try (repeat' first
                                        | split at h
                                        | (dsimp only at h; split at h))
                                      all_goals try (repeat obtain ⟨-, h⟩ := h)
                                      all_goals try (injection h with h)
                                      all_goals try (subst h)
                                      all_goals first
                                        | exact Option.noConfusion h
                                        | exact ⟨rfl, rfl⟩
                                        | (refine ⟨?_, ?_⟩ <;>
                                            first
                                              | rfl
                                              | (dsimp only [CPU.setup_load]; split <;> rfl))
                                    · simp [hc18] at h
                                      by_cases hc19 : i.secondary_opcode = 27
                                      · simp [hc19] at h
                                        all_goals try (exact ⟨rfl, rfl⟩)
                                        all_goals try (refine ⟨?_, ?_⟩ <;>
                                          first
                                            | rfl
                                            | (dsimp only [CPU.setup_load]; split <;> rfl))
                                        all_goals try (repeat' first
                                          | split at h
                                          | (dsimp only at h; split at h))
                                        all_goals try (repeat obtain ⟨-, h⟩ := h)
                                        all_goals try (injection h with h)
                                        all_goals try (subst h)
                                        all_goals first
                                          | exact Option.noConfusion h
                                          | exact ⟨rfl, rfl⟩
                                          | (refine ⟨?_, ?_⟩ <;>
                                              first
                                                | rfl
                                                | (dsimp only [CPU.setup_load]; split <;> rfl))
                                      · simp [hc19] at h
                                        by_cases hc20 : i.secondary_opcode = 32
                                        · simp [hc20] at h
                                          all_goals try (exact ⟨rfl, rfl⟩)
                                          all_goals try (refine ⟨?_, ?_⟩ <;>
                                            first
                                              | rfl
                                              | (dsimp only [CPU.setup_load]; split <;> rfl))
                                          all_goals try (repeat' first
                                            | split at h
                                            | (dsimp only at h; split at h))
                                          all_goals try (repeat obtain ⟨-, h⟩ := h)
                                          all_goals try (injection h with h)
                                          all_goals try (subst h)
                                          all_goals first
                                            | exact Option.noConfusion h
                                            | exact ⟨rfl, rfl⟩
                                            | (refine ⟨?_, ?_⟩ <;>
                                                first
                                                  | rfl
                                                  | (dsimp only [CPU.setup_load]; split <;> rfl))
                                        · simp [hc20] at h
                                          by_cases hc21 : i.secondary_opcode = 33
                                          · simp [hc21] at h
                                            all_goals try (exact ⟨rfl, rfl⟩)
                                            all_goals try (refine ⟨?_, ?_⟩ <;>
                                              first
                                                | rfl
                                                | (dsimp only [CPU.setup_load]; split <;> rfl))
                                            all_goals try (repeat' first
                                              | split at h
                                              | (dsimp only at h; split at h))
                                            all_goals try (repeat obtain ⟨-, h⟩ := h)
                                            all_goals try (injection h with h)
                                            all_goals try (subst h)
                                            all_goals first
                                              | exact Option.noConfusion h
                                              | exact ⟨rfl, rfl⟩
                                              | (refine ⟨?_, ?_⟩ <;>
                                                  first
                                                    | rfl
                                                    | (dsimp only [CPU.setup_load]; split <;> rfl))
                                          · simp [hc21] at h
                                            by_cases hc22 : i.secondary_opcode = 34
                                            · simp [hc22] at h
                                              all_goals try (exact ⟨rfl, rfl⟩)
                                              all_goals try (refine ⟨?_, ?_⟩ <;>
                                                first
                                                  | rfl
                                                  | (dsimp only [CPU.setup_load]; split <;> rfl))
                                              all_goals try (repeat' first
                                                | split at h
                                                | (dsimp only at h; split at h))
                                              all_goals try (repeat obtain ⟨-, h⟩ := h)
                                              all_goals try (injection h with h)
                                              all_goals try (subst h)
                                              all_goals first
                                                | exact Option.noConfusion h
                                                | exact ⟨rfl, rfl⟩
                                                | (refine ⟨?_, ?_⟩ <;>
                                                    first
                                                      | rfl
                                                      | (dsimp only [CPU.setup_load]; split <;> rfl))
                                            · simp [hc22] at h
                                              by_cases hc23 : i.secondary_opcode = 35
                                              · simp [hc23] at h
                                                all_goals try (exact ⟨rfl, rfl⟩)
                                                all_goals try (refine ⟨?_, ?_⟩ <;>
                                                  first
                                                    | rfl
                                                    | (dsimp only [CPU.setup_load]; split <;> rfl))
                                                all_goals try (repeat' first
                                                  | split at h
                                                  | (dsimp only at h; split at h))
                                                all_goals try (repeat obtain ⟨-, h⟩ := h)
                                                all_goals try (injection h with h)
                                                all_goals try (subst h)
                                                all_goals first
                                                  | exact Option.noConfusion h
                                                  | exact ⟨rfl, rfl⟩
                                                  | (refine ⟨?_, ?_⟩ <;>
                                                      first
                                                        | rfl
                                                        | (dsimp only [CPU.setup_load]; split <;> rfl))
                                              · simp [hc23] at h
                                                by_cases hc24 : i.secondary_opcode = 36
                                                · simp [hc24] at h
                                                  all_goals try (exact ⟨rfl, rfl⟩)
                                                  all_goals try (refine ⟨?_, ?_⟩ <;>
                                                    first
                                                      | rfl
                                                      | (dsimp only [CPU.setup_load]; split <;> rfl))
                                                  all_goals try (repeat' first
                                                    | split at h
                                                    | (dsimp only at h; split at h))
                                                  all_goals try (repeat obtain ⟨-, h⟩ := h)
                                                  all_goals try (injection h with h)
                                                  all_goals try (subst h)
                                                  all_goals first
                                                    | exact Option.noConfusion h
                                                    | exact ⟨rfl, rfl⟩
                                                    | (refine ⟨?_, ?_⟩ <;>
                                                        first
                                                          | rfl
                                                          | (dsimp only [CPU.setup_load]; split <;> rfl))
                                                · simp [hc24] at h
                                                  by_cases hc25 : i.secondary_opcode = 37
                                                  · simp [hc25] at h
                                                    all_goals try (exact ⟨rfl, rfl⟩)
                                                    all_goals try (refine ⟨?_, ?_⟩ <;>
                                                      first
                                                        | rfl
                                                        | (dsimp only [CPU.setup_load]; split <;> rfl))
                                                    all_goals try (repeat' first
                                                      | split at h
                                                      | (dsimp only at h; split at h))
                                                    all_goals try (repeat obtain ⟨-, h⟩ := h)
                                                    all_goals try (injection h with h)
                                                    all_goals try (subst h)
                                                    all_goals first
                                                      | exact Option.noConfusion h
                                                      | exact ⟨rfl, rfl⟩
                                                      | (refine ⟨?_, ?_⟩ <;>
                                                          first
                                                            | rfl
                                                            | (dsimp only [CPU.setup_load]; split <;> rfl))
                                                  · simp [hc25] at h
                                                    by_cases hc26 : i.secondary_opcode = 38
                                                    · simp [hc26] at h
                                                      all_goals try (exact ⟨rfl, rfl⟩)
                                                      all_goals try (refine ⟨?_, ?_⟩ <;>
                                                        first
                                                          | rfl
                                                          | (dsimp only [CPU.setup_load]; split <;> rfl))
                                                      all_goals try (repeat' first
                                                        | split at h
                                                        | (dsimp only at h; split at h))
                                                      all_goals try (repeat obtain ⟨-, h⟩ := h)
                                                      all_goals try (injection h with h)
                                                      all_goals try (subst h)
                                                      all_goals first
                                                        | exact Option.noConfusion h
                                                        | exact ⟨rfl, rfl⟩
                                                        | (refine ⟨?_, ?_⟩ <;>
                                                            first
                                                              | rfl
                                                              | (dsimp only [CPU.setup_load]; split <;> rfl))
                                                    · simp [hc26] at h
                                                      by_cases hc27 : i.secondary_opcode = 39
                                                      · simp [hc27] at h
                                                        all_goals try (exact ⟨rfl, rfl⟩)
                                                        all_goals try (refine ⟨?_, ?_⟩ <;>
                                                          first
                                                            | rfl
                                                            | (dsimp only [CPU.setup_load]; split <;> rfl))
                                                        all_goals try (repeat' first
                                                          | split at h
                                                          | (dsimp only at h; split at h))
                                                        all_goals try (repeat obtain ⟨-, h⟩ := h)
                                                        all_goals try (injection h with h)
                                                        all_goals try (subst h)
                                                        all_goals first
                                                          | exact Option.noConfusion h
                                                          | exact ⟨rfl, rfl⟩
                                                          | (refine ⟨?_, ?_⟩ <;>
                                                              first
                                                                | rfl
                                                                | (dsimp only [CPU.setup_load]; split <;> rfl))
                                                      · simp [hc27] at h
                                                        by_cases hc28 : i.secondary_opcode = 42
                                                        · simp [hc28] at h
                                                          all_goals try (exact ⟨rfl, rfl⟩)
                                                          all_goals try (refine ⟨?_, ?_⟩ <;>
                                                            first
                                                              | rfl
                                                              | (dsimp only [CPU.setup_load]; split <;> rfl))
                                                          all_goals try (repeat' first
                                                            | split at h
                                                            | (dsimp only at h; split at h))
                                                          all_goals try (repeat obtain ⟨-, h⟩ := h)
                                                          all_goals try (injection h with h)
                                                          all_goals try (subst h)
                                                          all_goals first
                                                            | exact Option.noConfusion h
                                                            | exact ⟨rfl, rfl⟩
                                                            | (refine ⟨?_, ?_⟩ <;>
                                                                first
                                                                  | rfl
                                                                  | (dsimp only [CPU.setup_load]; split <;> rfl))
                                                        · simp [hc28] at h
                                                          by_cases hc29 : i.secondary_opcode = 43
                                                          · simp [hc29] at h
                                                            all_goals try (exact ⟨rfl, rfl⟩)
                                                            all_goals try (refine ⟨?_, ?_⟩ <;>
                                                              first
                                                                | rfl
                                                                | (dsimp only [CPU.setup_load]; split <;> rfl))
                                                            all_goals try (repeat' first
                                                              | split at h
                                                              | (dsimp only at h; split at h))
                                                            all_goals try (repeat obtain ⟨-, h⟩ := h)
                                                            all_goals try (injection h with h)
                                                            all_goals try (subst h)
                                                            all_goals first
                                                              | exact Option.noConfusion h
                                                              | exact ⟨rfl, rfl⟩
                                                              | (refine ⟨?_, ?_⟩ <;>
                                                                  first
                                                                    | rfl
                                                                    | (dsimp only [CPU.setup_load]; split <;> rfl))
                                                          · simp [hc29] at h
  · simp [hc1] at h
    by_cases hc30 : i.opcode = 1
    · simp [hc30] at h
      by_cases hc31 : i.t = 0
      · simp [hc31] at h
        all_goals try (exact ⟨rfl, rfl⟩)
        all_goals try (refine ⟨?_, ?_⟩ <;>
          first
            | rfl
            | (dsimp only [CPU.setup_load]; split <;> rfl))
        all_goals try (repeat' first
          | split at h
          | (dsimp only at h; split at h))
        all_goals try (repeat obtain ⟨-, h⟩ := h)
        all_goals try (injection h with h)
        all_goals try (subst h)
        all_goals first
          | exact Option.noConfusion h
          | exact ⟨rfl, rfl⟩
          | (refine ⟨?_, ?_⟩ <;>
              first
                | rfl
                | (dsimp only [CPU.setup_load]; split <;> rfl))
      · simp [hc31] at h
        by_cases hc32 : i.t = 1
        · simp [hc32] at h
          all_goals try (exact ⟨rfl, rfl⟩)
          all_goals try (refine ⟨?_, ?_⟩ <;>
            first
              | rfl
              | (dsimp only [CPU.setup_load]; split <;> rfl))
          all_goals try (repeat' first
            | split at h
            | (dsimp only at h; split at h))
          all_goals try (repeat obtain ⟨-, h⟩ := h)
          all_goals try (injection h with h)
          all_goals try (subst h)
          all_goals first
            | exact Option.noConfusion h
            | exact ⟨rfl, rfl⟩
            | (refine ⟨?_, ?_⟩ <;>
                first
                  | rfl
                  | (dsimp only [CPU.setup_load]; split <;> rfl))
        · simp [hc32] at h
    · simp [hc30] at h
      by_cases hc33 : i.opcode = 2
      · simp [hc33] at h
        all_goals try (exact ⟨rfl, rfl⟩)
        all_goals try (refine ⟨?_, ?_⟩ <;>
          first
            | rfl
            | (dsimp only [CPU.setup_load]; split <;> rfl))
        all_goals try (repeat' first
          | split at h
          | (dsimp only at h; split at h))
        all_goals try (repeat obtain ⟨-, h⟩ := h)
        all_goals try (injection h with h)
        all_goals try (subst h)
        all_goals first
          | exact Option.noConfusion h
          | exact ⟨rfl, rfl⟩
          | (refine ⟨?_, ?_⟩ <;>
              first
                | rfl
                | (dsimp only [CPU.setup_load]; split <;> rfl))
      · simp [hc33] at h
        by_cases hc34 : i.opcode = 3
        · simp [hc34] at h
          all_goals try (exact ⟨rfl, rfl⟩)
          all_goals try (refine ⟨?_, ?_⟩ <;>
            first
              | rfl
              | (dsimp only [CPU.setup_load]; split <;> rfl))
          all_goals try (repeat' first
            | split at h
            | (dsimp only at h; split at h))
          all_goals try (repeat obtain ⟨-, h⟩ := h)
          all_goals try (injection h with h)
          all_goals try (subst h)
          all_goals first
            | exact Option.noConfusion h
            | exact ⟨rfl, rfl⟩
            | (refine ⟨?_, ?_⟩ <;>
                first
                  | rfl
                  | (dsimp only [CPU.setup_load]; split <;> rfl))
        · simp [hc34] at h
          by_cases hc35 : i.opcode = 4
          · simp [hc35] at h
            all_goals try (exact ⟨rfl, rfl⟩)
            all_goals try (refine ⟨?_, ?_⟩ <;>
              first
                | rfl
                | (dsimp only [CPU.setup_load]; split <;> rfl))
            all_goals try (repeat' first
              | split at h
              | (dsimp only at h; split at h))
            all_goals try (repeat obtain ⟨-, h⟩ := h)
            all_goals try (injection h with h)
            all_goals try (subst h)
            all_goals first
              | exact Option.noConfusion h
              | exact ⟨rfl, rfl⟩
              | (refine ⟨?_, ?_⟩ <;>
                  first
                    | rfl
                    | (dsimp only [CPU.setup_load]; split <;> rfl))
          · simp [hc35] at h
            by_cases hc36 : i.opcode = 5
            · simp [hc36] at h
              all_goals try (exact ⟨rfl, rfl⟩)
              all_goals try (refine ⟨?_, ?_⟩ <;>
                first
                  | rfl
                  | (dsimp only [CPU.setup_load]; split <;> rfl))
              all_goals try (repeat' first
                | split at h
                | (dsimp only at h; split at h))
              all_goals try (repeat obtain ⟨-, h⟩ := h)
              all_goals try (injection h with h)
              all_goals try (subst h)
              all_goals first
                | exact Option.noConfusion h
                | exact ⟨rfl, rfl⟩
                | (refine ⟨?_, ?_⟩ <;>
                    first
                      | rfl
                      | (dsimp only [CPU.setup_load]; split <;> rfl))
            · simp [hc36] at h
              by_cases hc37 : i.opcode = 6
              · simp [hc37] at h
                all_goals try (exact ⟨rfl, rfl⟩)
                all_goals try (refine ⟨?_, ?_⟩ <;>
                  first
                    | rfl
                    | (dsimp only [CPU.setup_load]; split <;> rfl))
                all_goals try (repeat' first
                  | split at h
                  | (dsimp only at h; split at h))
                all_goals try (repeat obtain ⟨-, h⟩ := h)
                all_goals try (injection h with h)
                all_goals try (subst h)
                all_goals first
                  | exact Option.noConfusion h
                  | exact ⟨rfl, rfl⟩
                  | (refine ⟨?_, ?_⟩ <;>
                      first
                        | rfl
                        | (dsimp only [CPU.setup_load]; split <;> rfl))
              · simp [hc37] at h
                by_cases hc38 : i.opcode = 7
                · simp [hc38] at h
                  all_goals try (exact ⟨rfl, rfl⟩)
                  all_goals try (refine ⟨?_, ?_⟩ <;>
                    first
                      | rfl
                      | (dsimp only [CPU.setup_load]; split <;> rfl))
                  all_goals try (repeat' first
                    | split at h
                    | (dsimp only at h; split at h))
                  all_goals try (repeat obtain ⟨-, h⟩ := h)
                  all_goals try (injection h with h)
                  all_goals try (subst h)
                  all_goals first
                    | exact Option.noConfusion h
                    | exact ⟨rfl, rfl⟩
                    | (refine ⟨?_, ?_⟩ <;>
                        first
                          | rfl
                          | (dsimp only [CPU.setup_load]; split <;> rfl))
                · simp [hc38] at h
                  by_cases hc39 : i.opcode = 8
                  · simp [hc39] at h
                    all_goals try (exact ⟨rfl, rfl⟩)
                    all_goals try (refine ⟨?_, ?_⟩ <;>
                      first
                        | rfl
                        | (dsimp only [CPU.setup_load]; split <;> rfl))
                    all_goals try (repeat' first
                      | split at h
                      | (dsimp only at h; split at h))
                    all_goals try (repeat obtain ⟨-, h⟩ := h)
                    all_goals try (injection h with h)
                    all_goals try (subst h)
                    all_goals first
                      | exact Option.noConfusion h
                      | exact ⟨rfl, rfl⟩
                      | (refine ⟨?_, ?_⟩ <;>
                          first
                            | rfl
                            | (dsimp only [CPU.setup_load]; split <;> rfl))
                  · simp [hc39] at h
                    by_cases hc40 : i.opcode = 9
                    · simp [hc40] at h
                      all_goals try (exact ⟨rfl, rfl⟩)
                      all_goals try (refine ⟨?_, ?_⟩ <;>
                        first
                          | rfl
                          | (dsimp only [CPU.setup_load]; split <;> rfl))
                      all_goals try (repeat' first
                        | split at h
                        | (dsimp only at h; split at h))
                      all_goals try (repeat obtain ⟨-, h⟩ := h)
                      all_goals try (injection h with h)
                      all_goals try (subst h)
                      all_goals first
                        | exact Option.noConfusion h
                        | exact ⟨rfl, rfl⟩
                        | (refine ⟨?_, ?_⟩ <;>
                            first
                              | rfl
                              | (dsimp only [CPU.setup_load]; split <;> rfl))
                    · simp [hc40] at h
                      by_cases hc41 : i.opcode = 10
                      · simp [hc41] at h
                        all_goals try (exact ⟨rfl, rfl⟩)
                        all_goals try (refine ⟨?_, ?_⟩ <;>
                          first
                            | rfl
                            | (dsimp only [CPU.setup_load]; split <;> rfl))
                        all_goals try (repeat' first
                          | split at h
                          | (dsimp only at h; split at h))
                        all_goals try (repeat obtain ⟨-, h⟩ := h)
                        all_goals try (injection h with h)
                        all_goals try (subst h)
                        all_goals first
                          | exact Option.noConfusion h
                          | exact ⟨rfl, rfl⟩
                          | (refine ⟨?_, ?_⟩ <;>
                              first
                                | rfl
                                | (dsimp only [CPU.setup_load]; split <;> rfl))
                      · simp [hc41] at h
                        by_cases hc42 : i.opcode = 11
                        · simp [hc42] at h
                          all_goals try (exact ⟨rfl, rfl⟩)
                          all_goals try (refine ⟨?_, ?_⟩ <;>
                            first
                              | rfl
                              | (dsimp only [CPU.setup_load]; split <;> rfl))
                          all_goals try (repeat' first
                            | split at h
                            | (dsimp only at h; split at h))
                          all_goals try (repeat obtain ⟨-, h⟩ := h)
                          all_goals try (injection h with h)
                          all_goals try (subst h)
                          all_goals first
                            | exact Option.noConfusion h
                            | exact ⟨rfl, rfl⟩
                            | (refine ⟨?_, ?_⟩ <;>
                                first
                                  | rfl
                                  | (dsimp only [CPU.setup_load]; split <;> rfl))
                        · simp [hc42] at h
                          by_cases hc43 : i.opcode = 12
                          · simp [hc43] at h
                            all_goals try (exact ⟨rfl, rfl⟩)
                            all_goals try (refine ⟨?_, ?_⟩ <;>
                              first
                                | rfl
                                | (dsimp only [CPU.setup_load]; split <;> rfl))
                            all_goals try (repeat' first
                              | split at h
                              | (dsimp only at h; split at h))
                            all_goals try (repeat obtain ⟨-, h⟩ := h)
                            all_goals try (injection h with h)
                            all_goals try (subst h)
                            all_goals first
                              | exact Option.noConfusion h
                              | exact ⟨rfl, rfl⟩
                              | (refine ⟨?_, ?_⟩ <;>
                                  first
                                    | rfl
                                    | (dsimp only [CPU.setup_load]; split <;> rfl))
                          · simp [hc43] at h
                            by_cases hc44 : i.opcode = 13
                            · simp [hc44] at h
                              all_goals try (exact ⟨rfl, rfl⟩)
                              all_goals try (refine ⟨?_, ?_⟩ <;>
                                first
                                  | rfl
                                  | (dsimp only [CPU.setup_load]; split <;> rfl))
                              all_goals try (repeat' first
                                | split at h
                                | (dsimp only at h; split at h))
                              all_goals try (repeat obtain ⟨-, h⟩ := h)
                              all_goals try (injection h with h)
                              all_goals try (subst h)
                              all_goals first
                                | exact Option.noConfusion h
                                | exact ⟨rfl, rfl⟩
                                | (refine ⟨?_, ?_⟩ <;>
                                    first
                                      | rfl
                                      | (dsimp only [CPU.setup_load]; split <;> rfl))
                            · simp [hc44] at h
                              by_cases hc45 : i.opcode = 14
                              · simp [hc45] at h
                                all_goals try (exact ⟨rfl, rfl⟩)
                                all_goals try (refine ⟨?_, ?_⟩ <;>
                                  first
                                    | rfl
                                    | (dsimp only [CPU.setup_load]; split <;> rfl))
                                all_goals try (repeat' first
                                  | split at h
                                  | (dsimp only at h; split at h))
                                all_goals try (repeat obtain ⟨-, h⟩ := h)
                                all_goals try (injection h with h)
                                all_goals try (subst h)
                                all_goals first
                                  | exact Option.noConfusion h
                                  | exact ⟨rfl, rfl⟩
                                  | (refine ⟨?_, ?_⟩ <;>
                                      first
                                        | rfl
                                        | (dsimp only [CPU.setup_load]; split <;> rfl))
                              · simp [hc45] at h
                                by_cases hc46 : i.opcode = 15
                                · simp [hc46] at h
                                  all_goals try (exact ⟨rfl, rfl⟩)
                                  all_goals try (refine ⟨?_, ?_⟩ <;>
                                    first
                                      | rfl
                                      | (dsimp only [CPU.setup_load]; split <;> rfl))
                                  all_goals try (repeat' first
                                    | split at h
                                    | (dsimp only at h; split at h))
                                  all_goals try (repeat obtain ⟨-, h⟩ := h)
                                  all_goals try (injection h with h)
                                  all_goals try (subst h)
                                  all_goals first
                                    | exact Option.noConfusion h
                                    | exact ⟨rfl, rfl⟩
                                    | (refine ⟨?_, ?_⟩ <;>
                                        first
                                          | rfl
                                          | (dsimp only [CPU.setup_load]; split <;> rfl))
                                · simp [hc46] at h
                                  by_cases hc47 : i.opcode = 16
                                  · simp [hc47] at h
                                    by_cases hc48 : i.coprocessor_opcode = 0
                                    · simp [hc48] at h
                                      by_cases hc49 : i.d = 3 ∨ i.d = 5 ∨ i.d = 6 ∨ i.d = 7 ∨ i.d = 9 ∨ i.d = 11
                                      · simp [hc49] at h
                                        all_goals try (exact ⟨rfl, rfl⟩)
                                        all_goals try (refine ⟨?_, ?_⟩ <;>
                                          first
                                            | rfl
                                            | (dsimp only [CPU.setup_load]; split <;> rfl))
                                        all_goals try (repeat' first
                                          | split at h
                                          | (dsimp only at h; split at h))
                                        all_goals try (repeat obtain ⟨-, h⟩ := h)
                                        all_goals try (injection h with h)
                                        all_goals try (subst h)
                                        all_goals first
                                          | exact Option.noConfusion h
                                          | exact ⟨rfl, rfl⟩
                                          | (refine ⟨?_, ?_⟩ <;>
                                              first
                                                | rfl
                                                | (dsimp only [CPU.setup_load]; split <;> rfl))
                                      · simp [hc49] at h
                                        by_cases hc50 : i.d = 12
                                        · simp [hc50] at h
                                          all_goals try (exact ⟨rfl, rfl⟩)
                                          all_goals try (refine ⟨?_, ?_⟩ <;>
                                            first
                                              | rfl
                                              | (dsimp only [CPU.setup_load]; split <;> rfl))
                                          all_goals try (repeat' first
                                            | split at h
                                            | (dsimp only at h; split at h))
                                          all_goals try (repeat obtain ⟨-, h⟩ := h)
                                          all_goals try (injection h with h)
                                          all_goals try (subst h)
                                          all_goals first
                                            | exact Option.noConfusion h
                                            | exact ⟨rfl, rfl⟩
                                            | (refine ⟨?_, ?_⟩ <;>
                                                first
                                                  | rfl
                                                  | (dsimp only [CPU.setup_load]; split <;> rfl))
                                        · simp [hc50] at h
                                    · simp [hc48] at h
                                      by_cases hc51 : i.coprocessor_opcode = 4
                                      · simp [hc51] at h
                                        by_cases hc52 : i.d = 3 ∨ i.d = 5 ∨ i.d = 6 ∨ i.d = 7 ∨ i.d = 9 ∨ i.d = 11
                                        · simp [hc52] at h
                                          all_goals try (exact ⟨rfl, rfl⟩)
                                          all_goals try (refine ⟨?_, ?_⟩ <;>
                                            first
                                              | rfl
                                              | (dsimp only [CPU.setup_load]; split <;> rfl))
                                          all_goals try (repeat' first
                                            | split at h
                                            | (dsimp only at h; split at h))
                                          all_goals try (repeat obtain ⟨-, h⟩ := h)
                                          all_goals try (injection h with h)
                                          all_goals try (subst h)
                                          all_goals first
                                            | exact Option.noConfusion h
                                            | exact ⟨rfl, rfl⟩
                                            | (refine ⟨?_, ?_⟩ <;>
                                                first
                                                  | rfl
                                                  | (dsimp only [CPU.setup_load]; split <;> rfl))
                                        · simp [hc52] at h
                                          by_cases hc53 : i.d = 12
                                          · simp [hc53] at h
                                            all_goals try (exact ⟨rfl, rfl⟩)
                                            all_goals try (refine ⟨?_, ?_⟩ <;>
                                              first
                                                | rfl
                                                | (dsimp only [CPU.setup_load]; split <;> rfl))
                                            all_goals try (repeat' first
                                              | split at h
                                              | (dsimp only at h; split at h))
                                            all_goals try (repeat obtain ⟨-, h⟩ := h)
                                            all_goals try (injection h with h)
                                            all_goals try (subst h)
                                            all_goals first
                                              | exact Option.noConfusion h
                                              | exact ⟨rfl, rfl⟩
                                              | (refine ⟨?_, ?_⟩ <;>
                                                  first
                                                    | rfl
                                                    | (dsimp only [CPU.setup_load]; split <;> rfl))
                                          · simp [hc53] at h
                                            by_cases hc54 : i.d = 13
                                            · simp [hc54] at h
                                              all_goals try (exact ⟨rfl, rfl⟩)
                                              all_goals try (refine ⟨?_, ?_⟩ <;>
                                                first
                                                  | rfl
                                                  | (dsimp only [CPU.setup_load]; split <;> rfl))
                                              all_goals try (repeat' first
                                                | split at h
                                                | (dsimp only at h; split at h))
                                              all_goals try (repeat obtain ⟨-, h⟩ := h)
                                              all_goals try (injection h with h)
                                              all_goals try (subst h)
                                              all_goals first
                                                | exact Option.noConfusion h
                                                | exact ⟨rfl, rfl⟩
                                                | (refine ⟨?_, ?_⟩ <;>
                                                    first
                                                      | rfl
                                                      | (dsimp only [CPU.setup_load]; split <;> rfl))
                                            · simp [hc54] at h
                                      · simp [hc51] at h
                                        by_cases hc55 : i.coprocessor_opcode = 16
                                        · simp [hc55] at h
                                          all_goals try (exact ⟨rfl, rfl⟩)
                                          all_goals try (refine ⟨?_, ?_⟩ <;>
                                            first
                                              | rfl
                                              | (dsimp only [CPU.setup_load]; split <;> rfl))
                                          all_goals try (repeat' first
                                            | split at h
                                            | (dsimp only at h; split at h))
                                          all_goals try (repeat obtain ⟨-, h⟩ := h)
                                          all_goals try (injection h with h)
                                          all_goals try (subst h)
                                          all_goals first
                                            | exact Option.noConfusion h
                                            | exact ⟨rfl, rfl⟩
                                            | (refine ⟨?_, ?_⟩ <;>
                                                first
                                                  | rfl
                                                  | (dsimp only [CPU.setup_load]; split <;> rfl))
                                        · simp [hc55] at h
                                  · simp [hc47] at h
                                    by_cases hc56 : i.opcode = 17
                                    · simp [hc56] at h
                                      all_goals try (exact ⟨rfl, rfl⟩)
                                      all_goals try (refine ⟨?_, ?_⟩ <;>
                                        first
                                          | rfl
                                          | (dsimp only [CPU.setup_load]; split <;> rfl))
                                      all_goals try (repeat' first
                                        | split at h
                                        | (dsimp only at h; split at h))
                                      all_goals try (repeat obtain ⟨-, h⟩ := h)
                                      all_goals try (injection h with h)
                                      all_goals try (subst h)
                                      all_goals first
                                        | exact Option.noConfusion h
                                        | exact ⟨rfl, rfl⟩
                                        | (refine ⟨?_, ?_⟩ <;>
                                            first
                                              | rfl
                                              | (dsimp only [CPU.setup_load]; split <;> rfl))
                                    · simp [hc56] at h
                                      by_cases hc57 : i.opcode = 18
                                      · simp [hc57] at h
                                        all_goals try (exact ⟨rfl, rfl⟩)
                                        all_goals try (refine ⟨?_, ?_⟩ <;>
                                          first
                                            | rfl
                                            | (dsimp only [CPU.setup_load]; split <;> rfl))
                                        all_goals try (repeat' first
                                          | split at h
                                          | (dsimp only at h; split at h))
                                        all_goals try (repeat obtain ⟨-, h⟩ := h)
                                        all_goals try (injection h with h)
                                        all_goals try (subst h)
                                        all_goals first
                                          | exact Option.noConfusion h
                                          | exact ⟨rfl, rfl⟩
                                          | (refine ⟨?_, ?_⟩ <;>
                                              first
                                                | rfl
                                                | (dsimp only [CPU.setup_load]; split <;> rfl))
                                      · simp [hc57] at h
                                        by_cases hc58 : i.opcode = 19
                                        · simp [hc58] at h
                                          all_goals try (exact ⟨rfl, rfl⟩)
                                          all_goals try (refine ⟨?_, ?_⟩ <;>
                                            first
                                              | rfl
                                              | (dsimp only [CPU.setup_load]; split <;> rfl))
                                          all_goals try (repeat' first
                                            | split at h
                                            | (dsimp only at h; split at h))
                                          all_goals try (repeat obtain ⟨-, h⟩ := h)
                                          all_goals try (injection h with h)
                                          all_goals try (subst h)
                                          all_goals first
                                            | exact Option.noConfusion h
                                            | exact ⟨rfl, rfl⟩
                                            | (refine ⟨?_, ?_⟩ <;>
                                                first
                                                  | rfl
                                                  | (dsimp only [CPU.setup_load]; split <;> rfl))
                                        · simp [hc58] at h
                                          by_cases hc59 : i.opcode = 32
                                          · simp [hc59] at h
                                            all_goals try (exact ⟨rfl, rfl⟩)
                                            all_goals try (refine ⟨?_, ?_⟩ <;>
                                              first
                                                | rfl
                                                | (dsimp only [CPU.setup_load]; split <;> rfl))
                                            all_goals try (repeat' first
                                              | split at h
                                              | (dsimp only at h; split at h))
                                            all_goals try (repeat obtain ⟨-, h⟩ := h)
                                            all_goals try (injection h with h)
                                            all_goals try (subst h)
                                            all_goals first
                                              | exact Option.noConfusion h
                                              | exact ⟨rfl, rfl⟩
                                              | (refine ⟨?_, ?_⟩ <;>
                                                  first
                                                    | rfl
                                                    | (dsimp only [CPU.setup_load]; split <;> rfl))
                                          · simp [hc59] at h
                                            by_cases hc60 : i.opcode = 33
                                            · simp [hc60] at h
                                              all_goals try (exact ⟨rfl, rfl⟩)
                                              all_goals try (refine ⟨?_, ?_⟩ <;>
                                                first
                                                  | rfl
                                                  | (dsimp only [CPU.setup_load]; split <;> rfl))
                                              all_goals try (repeat' first
                                                | split at h
                                                | (dsimp only at h; split at h))
                                              all_goals try (repeat obtain ⟨-, h⟩ := h)
                                              all_goals try (injection h with h)
                                              all_goals try (subst h)
                                              all_goals first
                                                | exact Option.noConfusion h
                                                | exact ⟨rfl, rfl⟩
                                                | (refine ⟨?_, ?_⟩ <;>
                                                    first
                                                      | rfl
                                                      | (dsimp only [CPU.setup_load]; split <;> rfl))
                                            · simp [hc60] at h
                                              by_cases hc61 : i.opcode = 34
                                              · simp [hc61] at h
                                                all_goals try (exact ⟨rfl, rfl⟩)
                                                all_goals try (refine ⟨?_, ?_⟩ <;>
                                                  first
                                                    | rfl
                                                    | (dsimp only [CPU.setup_load]; split <;> rfl))
                                                all_goals try (repeat' first
                                                  | split at h
                                                  | (dsimp only at h; split at h))
                                                all_goals try (repeat obtain ⟨-, h⟩ := h)
                                                all_goals try (injection h with h)
                                                all_goals try (subst h)
                                                all_goals first
                                                  | exact Option.noConfusion h
                                                  | exact ⟨rfl, rfl⟩
                                                  | (refine ⟨?_, ?_⟩ <;>
                                                      first
                                                        | rfl
                                                        | (dsimp only [CPU.setup_load]; split <;> rfl))
                                              · simp [hc61] at h
                                                by_cases hc62 : i.opcode = 35
                                                · simp [hc62] at h
                                                  all_goals try (exact ⟨rfl, rfl⟩)
                                                  all_goals try (refine ⟨?_, ?_⟩ <;>
                                                    first
                                                      | rfl
                                                      | (dsimp only [CPU.setup_load]; split <;> rfl))
                                                  all_goals try (repeat' first
                                                    | split at h
                                                    | (dsimp only at h; split at h))
                                                  all_goals try (repeat obtain ⟨-, h⟩ := h)
                                                  all_goals try (injection h with h)
                                                  all_goals try (subst h)
                                                  all_goals first
                                                    | exact Option.noConfusion h
                                                    | exact ⟨rfl, rfl⟩
                                                    | (refine ⟨?_, ?_⟩ <;>
                                                        first
                                                          | rfl
                                                          | (dsimp only [CPU.setup_load]; split <;> rfl))
                                                · simp [hc62] at h
                                                  by_cases hc63 : i.opcode = 36
                                                  · simp [hc63] at h
                                                    all_goals try (exact ⟨rfl, rfl⟩)
                                                    all_goals try (refine ⟨?_, ?_⟩ <;>
                                                      first
                                                        | rfl
                                                        | (dsimp only [CPU.setup_load]; split <;> rfl))
                                                    all_goals try (repeat' first
                                                      | split at h
                                                      | (dsimp only at h; split at h))
                                                    all_goals try (repeat obtain ⟨-, h⟩ := h)
                                                    all_goals try (injection h with h)
                                                    all_goals try (subst h)
                                                    all_goals first
                                                      | exact Option.noConfusion h
                                                      | exact ⟨rfl, rfl⟩
                                                      | (refine ⟨?_, ?_⟩ <;>
                                                          first
                                                            | rfl
                                                            | (dsimp only [CPU.setup_load]; split <;> rfl))
                                                  · simp [hc63] at h
                                                    by_cases hc64 : i.opcode = 37
                                                    · simp [hc64] at h
                                                      all_goals try (exact ⟨rfl, rfl⟩)
                                                      all_goals try (refine ⟨?_, ?_⟩ <;>
                                                        first
                                                          | rfl
                                                          | (dsimp only [CPU.setup_load]; split <;> rfl))
                                                      all_goals try (repeat' first
                                                        | split at h
                                                        | (dsimp only at h; split at h))
                                                      all_goals try (repeat obtain ⟨-, h⟩ := h)
                                                      all_goals try (injection h with h)
                                                      all_goals try (subst h)
                                                      all_goals first
                                                        | exact Option.noConfusion h
                                                        | exact ⟨rfl, rfl⟩
                                                        | (refine ⟨?_, ?_⟩ <;>
                                                            first
                                                              | rfl
                                                              | (dsimp only [CPU.setup_load]; split <;> rfl))
                                                    · simp [hc64] at h
                                                      by_cases hc65 : i.opcode = 38
                                                      · simp [hc65] at h
                                                        all_goals try (exact ⟨rfl, rfl⟩)
                                                        all_goals try (refine ⟨?_, ?_⟩ <;>
                                                          first
                                                            | rfl
                                                            | (dsimp only [CPU.setup_load]; split <;> rfl))
                                                        all_goals try (repeat' first
                                                          | split at h
                                                          | (dsimp only at h; split at h))
                                                        all_goals try (repeat obtain ⟨-, h⟩ := h)
                                                        all_goals try (injection h with h)
                                                        all_goals try (subst h)
                                                        all_goals first
                                                          | exact Option.noConfusion h
                                                          | exact ⟨rfl, rfl⟩
                                                          | (refine ⟨?_, ?_⟩ <;>
                                                              first
                                                                | rfl
                                                                | (dsimp only [CPU.setup_load]; split <;> rfl))
                                                      · simp [hc65] at h
                                                        by_cases hc66 : i.opcode = 40
                                                        · simp [hc66] at h
                                                          all_goals try (exact ⟨rfl, rfl⟩)
                                                          all_goals try (refine ⟨?_, ?_⟩ <;>
                                                            first
                                                              | rfl
                                                              | (dsimp only [CPU.setup_load]; split <;> rfl))
                                                          all_goals try (repeat' first
                                                            | split at h
                                                            | (dsimp only at h; split at h))
                                                          all_goals try (repeat obtain ⟨-, h⟩ := h)
                                                          all_goals try (injection h with h)
                                                          all_goals try (subst h)
                                                          all_goals first
                                                            | exact Option.noConfusion h
                                                            | exact ⟨rfl, rfl⟩
                                                            | (refine ⟨?_, ?_⟩ <;>
                                                                first
                                                                  | rfl
                                                                  | (dsimp only [CPU.setup_load]; split <;> rfl))
                                                        · simp [hc66] at h
                                                          by_cases hc67 : i.opcode = 41
                                                          · simp [hc67] at h
                                                            all_goals try (exact ⟨rfl, rfl⟩)
                                                            all_goals try (refine ⟨?_, ?_⟩ <;>
                                                              first
                                                                | rfl
                                                                | (dsimp only [CPU.setup_load]; split <;> rfl))
                                                            all_goals try (repeat' first
                                                              | split at h
                                                              | (dsimp only at h; split at h))
                                                            all_goals try (repeat obtain ⟨-, h⟩ := h)
                                                            all_goals try (injection h with h)
                                                            all_goals try (subst h)
                                                            all_goals first
                                                              | exact Option.noConfusion h
                                                              | exact ⟨rfl, rfl⟩
                                                              | (refine ⟨?_, ?_⟩ <;>
                                                                  first
                                                                    | rfl
                                                                    | (dsimp only [CPU.setup_load]; split <;> rfl))
                                                          · simp [hc67] at h
                                                            by_cases hc68 : i.opcode = 43
                                                            · simp [hc68] at h
                                                              all_goals try (exact ⟨rfl, rfl⟩)
                                                              all_goals try (refine ⟨?_, ?_⟩ <;>
                                                                first
                                                                  | rfl
                                                                  | (dsimp only [CPU.setup_load]; split <;> rfl))
                                                              all_goals try (repeat' first
                                                                | split at h
                                                                | (dsimp only at h; split at h))
                                                              all_goals try (repeat obtain ⟨-, h⟩ := h)
                                                              all_goals try (injection h with h)
                                                              all_goals try (subst h)
                                                              all_goals first
                                                                | exact Option.noConfusion h
                                                                | exact ⟨rfl, rfl⟩
                                                                | (refine ⟨?_, ?_⟩ <;>
                                                                    first
                                                                      | rfl
                                                                      | (dsimp only [CPU.setup_load]; split <;> rfl))
                                                            · simp [hc68] at h

/-- C4 amended.  Executing RFE sets bits 0-3 of status to
`(status & 0x3F) >> 2` and preserves every bit from bit 4 upward (in
particular bits 4-5 are preserved, not cleared). -/
theorem c4_rfe_amended (c : CPU) (i : Instruction) (c' : CPU)
    (hop : i.opcode = 16) (hcop : i.coprocessor_opcode = 16)
    (hs : c.cop0.status < 4294967296)
    (hexec : c.execute i = some c') :
    c'.cop0.status &&& 0xF = (c.cop0.status &&& 0x3F) >>> 2 ∧
    c'.cop0.status >>> 4 = c.cop0.status >>> 4 := by
  simp only [CPU.execute, hop, hcop, CPU.finish_load] at hexec
  simp at hexec
  subst hexec
  exact ⟨rfe_low c.cop0.status, rfe_high c.cop0.status hs⟩

/-- C4 amended, witness: RFE on status 0x30. -/
theorem c4_rfe_amended_witness :
    ∃ c', cpuStatus30.execute { val := 0x42000010 } = some c' ∧
      (c'.cop0.status &&& 0xF = (cpuStatus30.cop0.status &&& 0x3F) >>> 2 ∧
       c'.cop0.status >>> 4 = cpuStatus30.cop0.status >>> 4) := by
  refine ⟨_, rfl, ?_⟩
  exact c4_rfe_amended cpuStatus30 { val := 0x42000010 } _ (by decide) (by decide)
    (by decide) rfl

/-- C5.  Load-delay slot: for LW Rt followed by ADDU Rx, Rt, R0 (starting from
a state with an idle pending-load slot and R0 = 0), Rx afterwards equals the
value Rt held before the load, and (for x ≠ t ≠ 0) Rt holds the loaded value
after the ADDU retires it.  Additionally, a subsequent load targeting the same
register as the pending load discards the pending value, while one targeting a
different register first retires the pending load into its register. -/
theorem c5_load_delay (c : CPU) (lw addu : Instruction) (memv : Nat)
    (hreg0 : c.registers 0 = 0) (hpend : c.next_load = (0, 0))
    (hbound : c.registers lw.t < 4294967296)
    (hlwop : lw.opcode = 35)
    (haop : addu.opcode = 0) (hafunct : addu.secondary_opcode = 0x21)
    (has : addu.s = lw.t) (hat : addu.t = 0)
    (hmem : c.mmu.read (wrapAdd (c.registers lw.s) lw.immediate_sign_extended) 4
      = some memv) :
    (∃ c1 c2, c.execute lw = some c1 ∧ c1.execute addu = some c2 ∧
      c2.registers addu.d = c.registers lw.t ∧
      (addu.d ≠ lw.t → lw.t ≠ 0 → c2.registers lw.t = memv)) ∧
    (∀ (d : CPU) (r v w : Nat), d.next_load = (r, v) →
      (d.setup_load r w).registers = d.registers ∧
      (d.setup_load r w).next_load = (r, w)) ∧
    (∀ (d : CPU) (r v r' w : Nat), d.next_load = (r, v) → r' ≠ r →
      (d.setup_load r' w).registers = Function.update d.registers r v ∧
      (d.setup_load r' w).next_load = (r', w)) := by
  refine ⟨?_, ?_, ?_⟩
  case refine_2 =>
    intro d r v w hp
    unfold CPU.setup_load
    rw [hp]
    simp
  case refine_3 =>
    intro d r v r' w hp hne
    unfold CPU.setup_load
    rw [hp]
    simp [Ne.symm hne]
  have hc1 : c.execute lw = some (c.setup_load lw.t memv) := by
    simp [CPU.execute, hlwop, hmem]
  rcases eq_or_ne lw.t 0 with ht0 | ht0
  · -- load into R0: the pending slot already targets register 0, no retire
    have hc1' : c.setup_load lw.t memv = { c with next_load := (0, memv) } := by
      unfold CPU.setup_load
      rw [hpend, ht0]
      simp
    have hc2 : ({ c with next_load := (0, memv) } : CPU).execute addu
        = some { c with
            registers := Function.update (Function.update c.registers 0 memv) addu.d
              (wrapAdd (c.registers addu.s) (c.registers addu.t)),
            next_load := (0, 0) } := by
      simp [CPU.execute, haop, hafunct, CPU.finish_load]
    refine ⟨_, _, hc1, by rw [hc1']; exact hc2, ?_, ?_⟩
    · dsimp only
      simp [Function.update_apply, has, hat, ht0, hreg0, wrapAdd]
    · intro _ hne
      exact absurd ht0 hne
  · -- load into some other register: the idle pending slot writes R0 := 0
    have hc1' : c.setup_load lw.t memv
        = { c with
              registers := Function.update c.registers 0 0,
              next_load := (lw.t, memv) } := by
      unfold CPU.setup_load
      rw [hpend]
      simp [Ne.symm ht0]
    have hc2 : ({ c with
              registers := Function.update c.registers 0 0,
              next_load := (lw.t, memv) } : CPU).execute addu
        = some { c with
            registers := Function.update
              (Function.update (Function.update c.registers 0 0) lw.t memv) addu.d
              (wrapAdd (Function.update c.registers 0 0 addu.s)
                (Function.update c.registers 0 0 addu.t)),
            next_load := (0, 0) } := by
      simp [CPU.execute, haop, hafunct, CPU.finish_load]
    refine ⟨_, _, hc1, by rw [hc1']; exact hc2, ?_, ?_⟩
    · dsimp only
      simp [Function.update_apply, has, hat, ht0, wrapAdd, Nat.mod_eq_of_lt hbound]
    · intro hd hne
      dsimp only
      simp [Function.update_apply, Ne.symm hd, ht0]

/-- C5 witness: LW R2, 0(R1) then ADDU R3, R2, R0 on the reset machine. -/
theorem c5_load_delay_witness :
    (∃ c1 c2, (CPU.new (MMU.new [])).execute { val := 0x8C220000 } = some c1 ∧
      c1.execute { val := 0x00401821 } = some c2 ∧
      c2.registers 3 = (CPU.new (MMU.new [])).registers 2 ∧
      ((3 : Nat) ≠ 2 → (2 : Nat) ≠ 0 → c2.registers 2 = 0)) ∧
    (∀ (d : CPU) (r v w : Nat), d.next_load = (r, v) →
      (d.setup_load r w).registers = d.registers ∧
      (d.setup_load r w).next_load = (r, w)) ∧
    (∀ (d : CPU) (r v r' w : Nat), d.next_load = (r, v) → r' ≠ r →
      (d.setup_load r' w).registers = Function.update d.registers r v ∧
      (d.setup_load r' w).next_load = (r', w)) :=
  c5_load_delay (CPU.new (MMU.new [])) { val := 0x8C220000 } { val := 0x00401821 } 0
    (by decide) (by decide) (by decide) (by decide) (by decide) (by decide) (by decide)
    (by decide) (by decide)

/-- C6 amended.  After a step whose executed instruction leaves next_pc at its
pipeline-advanced value, `next_pc = pc + 4 (mod 2^32)` holds; the spec's
`next_pc = current_pc + 8` additionally holds whenever the pre-step state had
no branch pending (`next_pc = pc + 4`), but fails in a branch delay slot. -/
theorem c6_amended (c c1 : CPU)
    (hstep : c.step = some c1)
    (hnw : c1.next_pc = (c.next_pc + 4) % 4294967296) :
    c1.next_pc = (c1.pc + 4) % 4294967296 ∧
    (c.next_pc = (c.pc + 4) % 4294967296 →
      c1.next_pc = (c1.current_pc + 8) % 4294967296) := by
  unfold CPU.step at hstep
  cases hl : c.load_instruction with
  | none => rw [hl] at hstep; exact Option.noConfusion hstep
  | some instr =>
    rw [hl] at hstep
    dsimp only at hstep
    cases he : ({ c with
        current_pc := c.pc
        pc := c.next_pc
        next_pc := (c.next_pc + 4) % 4294967296 } : CPU).execute instr with
    | none => rw [he] at hstep; exact Option.noConfusion hstep
    | some cx =>
      rw [he] at hstep
      injection hstep with hstep
      obtain ⟨hpc, hcur⟩ := execute_preserves_pc _ instr cx he
      subst hstep
      have hpc' : cx.pc = c.next_pc := hpc
      have hcur' : cx.current_pc = c.pc := hcur
      have hnw' : cx.next_pc = (c.next_pc + 4) % 4294967296 := hnw
      constructor
      · show cx.next_pc = (cx.pc + 4) % 4294967296
        rw [hpc', hnw']
      · intro hlin
        show cx.next_pc = (cx.current_pc + 8) % 4294967296
        rw [hcur', hnw', hlin]
        omega

/-- C6 amended, witness: one step of a single ADDIU from reset. -/
theorem c6_amended_witness :
    ∃ c1, (CPU.new (MMU.new biosC6W)).step = some c1 ∧
      (c1.next_pc = (c1.pc + 4) % 4294967296 ∧
       ((CPU.new (MMU.new biosC6W)).next_pc
           = ((CPU.new (MMU.new biosC6W)).pc + 4) % 4294967296 →
         c1.next_pc = (c1.current_pc + 8) % 4294967296)) := by
  refine ⟨_, rfl, ?_⟩
  exact c6_amended _ _ rfl (by decide)

/-- C7.  Every SB/SH/SW executed while COP0 status bit 16 (cache isolation)
is set leaves the MMU (RAM, memory-control, ram-size, cache-control,
interrupt registers, timers) unchanged: the store never reaches MMU.write. -/
theorem c7_isolated_store_preserves_mmu (c : CPU) (i : Instruction) (c' : CPU)
    (hop : i.opcode = 40 ∨ i.opcode = 41 ∨ i.opcode = 43)
    (hiso : c.cop0.status &&& 0x10000 ≠ 0)
    (hexec : c.execute i = some c') : c'.mmu = c.mmu := by
  have hiso' : c.cop0.is_cache_isolated = true := by
    unfold Coprocessor.is_cache_isolated
    exact bne_iff_ne.mpr hiso
  rcases hop with h | h | h <;>
  · simp only [CPU.execute, h] at hexec
    simp only [CPU.finish_load] at hexec
    simp [hiso'] at hexec
    subst hexec
    rfl

/-- C7 witness: SW R0, 0(R0) in a cache-isolated state. -/
theorem c7_isolated_store_preserves_mmu_witness :
    ∃ c', cpuIsolated.execute { val := 0xAC000000 } = some c' ∧
      c'.mmu = cpuIsolated.mmu := by
  refine ⟨_, rfl, ?_⟩
  exact c7_isolated_store_preserves_mmu cpuIsolated { val := 0xAC000000 } _
    (Or.inr (Or.inr (by decide))) (by decide) rfl

/-- C8 amended.  MFC0 of COP0 register 12 schedules a load of status into
R[t]; MFC0 of registers 3, 5, 6, 7, 9, 11 is accepted and ignored; MFC0 of
register 13 (cause) is fatal. -/
theorem c8_mfc0_amended (c : CPU) (i : Instruction)
    (hop : i.opcode = 16) (hcop : i.coprocessor_opcode = 0) :
    (i.d = 12 → c.execute i = some (c.setup_load i.t c.cop0.status)) ∧
    ((i.d = 3 ∨ i.d = 5 ∨ i.d = 6 ∨ i.d = 7 ∨ i.d = 9 ∨ i.d = 11) →
      c.execute i = some c) ∧
    (i.d = 13 → c.execute i = none) := by
  refine ⟨?_, ?_, ?_⟩
  · intro hd
    simp [CPU.execute, hop, hcop, hd]
  · intro hd
    simp [CPU.execute, hop, hcop, hd]
  · intro hd
    simp [CPU.execute, hop, hcop, hd]

/-- C8 amended, witness: MFC0 of registers 12, 3 and 13 on the reset machine. -/
theorem c8_mfc0_amended_witness :
    ((CPU.new (MMU.new [])).execute { val := 0x40016000 }
      = some ((CPU.new (MMU.new [])).setup_load 1 (CPU.new (MMU.new [])).cop0.status)) ∧
    ((CPU.new (MMU.new [])).execute { val := 0x40011800 } = some (CPU.new (MMU.new []))) ∧
    ((CPU.new (MMU.new [])).execute { val := 0x40016800 } = none) := by
  refine ⟨?_, ?_, ?_⟩
  · exact (c8_mfc0_amended (CPU.new (MMU.new [])) { val := 0x40016000 } (by decide)
      (by decide)).1 (by decide)
  · exact (c8_mfc0_amended (CPU.new (MMU.new [])) { val := 0x40011800 } (by decide)
      (by decide)).2.1 (by decide)
  · exact (c8_mfc0_amended (CPU.new (MMU.new [])) { val := 0x40016800 } (by decide)
      (by decide)).2.2 (by decide)

/-- C9.  Segment mirroring: for any addr < 0x20000000 and any size, reading
through the KSEG0 alias (addr | 0x80000000) or the KSEG1 alias
(addr | 0xA0000000) gives the same result as reading addr itself. -/
theorem c9_segment_mirroring (m : MMU) (addr size : Nat) (h : addr < 0x20000000) :
    m.read (addr ||| 0x80000000) size = m.read addr size ∧
    m.read (addr ||| 0xA0000000) size = m.read addr size := by
  have t0 : addr &&& MEMORY_REGION_MASK (addr >>> 29) = addr := by
    rw [kuseg_shift addr h]
    exact kuseg_mask addr h
  have t4 : (addr ||| 0x80000000) &&& MEMORY_REGION_MASK ((addr ||| 0x80000000) >>> 29)
      = addr := by
    rw [kseg0_shift addr h]
    exact kseg0_mask addr h
  have t5 : (addr ||| 0xA0000000) &&& MEMORY_REGION_MASK ((addr ||| 0xA0000000) >>> 29)
      = addr := by
    rw [kseg1_shift addr h]
    exact kseg1_mask addr h
  constructor
  · unfold MMU.read
    rw [t0, t4]
  · unfold MMU.read
    rw [t0, t5]

/-- C9 witness: the three aliases of address 0x100. -/
theorem c9_segment_mirroring_witness :
    (0x100 : Nat) < 0x20000000 ∧
    ((MMU.new []).read (0x100 ||| 0x80000000) 4 = (MMU.new []).read 0x100 4 ∧
     (MMU.new []).read (0x100 ||| 0xA0000000) 4 = (MMU.new []).read 0x100 4) :=
  ⟨by decide, c9_segment_mirroring (MMU.new []) 0x100 4 (by decide)⟩

set_option maxHeartbeats 1000000 in
/-- C10.  MMU.read slices four consecutive bytes regardless of the requested
size: every read whose translated offset lies in the last three bytes of RAM
is fatal, every read in the BIOS region whose offset + 4 exceeds the BIOS
image length is fatal, and RAM reads are total whenever offset + 4 fits. -/
theorem c10_reads_four_bytes :
    (∀ (m : MMU) (size addr : Nat), 0x1FFFFD ≤ addr → addr < 0x200000 →
      m.read addr size = none) ∧
    (∀ (m : MMU) (size addr : Nat), 0x1FC00000 ≤ addr → addr < 0x1FC80000 →
      m.bios.length < (addr - 0x1FC00000) + 4 → m.read addr size = none) ∧
    (∀ (m : MMU) (size addr : Nat), addr + 4 ≤ 0x200000 → size ≤ 4 →
      (m.read addr size).isSome = true) := by
  refine ⟨?_, ?_, ?_⟩
  · intro m size addr h1 h2
    have htr : addr &&& MEMORY_REGION_MASK (addr >>> 29) = addr := by
      rw [kuseg_shift addr (by omega)]
      exact kuseg_mask addr (by omega)
    unfold MMU.read
    rw [htr]
    clear htr
    simp only [RAM_START, RAM_END, RAM_SIZE, BIOS_START, BIOS_END, BIOS_SIZE,
      EXPANSION_1_START, EXPANSION_1_END, EXPANSION_1_SIZE]
    norm_num
    split_ifs <;> first | rfl | (exfalso; omega) | simp
  · intro m size addr h1 h2 h3
    have htr : addr &&& MEMORY_REGION_MASK (addr >>> 29) = addr := by
      rw [kuseg_shift addr (by omega)]
      exact kuseg_mask addr (by omega)
    unfold MMU.read
    rw [htr]
    clear htr
    simp only [RAM_START, RAM_END, RAM_SIZE, BIOS_START, BIOS_END, BIOS_SIZE,
      EXPANSION_1_START, EXPANSION_1_END, EXPANSION_1_SIZE]
    norm_num
    split_ifs <;> first | rfl | (exfalso; omega) | simp
  · intro m size addr h1 h2
    have htr : addr &&& MEMORY_REGION_MASK (addr >>> 29) = addr := by
      rw [kuseg_shift addr (by omega)]
      exact kuseg_mask addr (by omega)
    unfold MMU.read
    rw [htr]
    clear htr
    simp only [RAM_START, RAM_END, RAM_SIZE, BIOS_START, BIOS_END, BIOS_SIZE,
      EXPANSION_1_START, EXPANSION_1_END, EXPANSION_1_SIZE]
    norm_num
    split_ifs <;> first | rfl | (exfalso; omega) | simp

/-- C10 witness: a size-1 read at RAM offset 0x1FFFFD and at BIOS offset 0 of
a three-byte BIOS image are fatal; a size-1 read at RAM offset 0x100 exists. -/
theorem c10_reads_four_bytes_witness :
    ((0x1FFFFD : Nat) ≤ 0x1FFFFD ∧ (0x1FFFFD : Nat) < 0x200000 ∧
      (MMU.new [1, 2, 3]).read 0x1FFFFD 1 = none) ∧
    ((0x1FC00000 : Nat) ≤ 0x1FC00000 ∧ (0x1FC00000 : Nat) < 0x1FC80000 ∧
      (MMU.new [1, 2, 3]).bios.length < (0x1FC00000 - 0x1FC00000 : Nat) + 4 ∧
      (MMU.new [1, 2, 3]).read 0x1FC00000 1 = none) ∧
    ((0x100 : Nat) + 4 ≤ 0x200000 ∧ (1 : Nat) ≤ 4 ∧
      ((MMU.new [1, 2, 3]).read 0x100 1).isSome = true) := by
  refine ⟨⟨by decide, by decide, ?_⟩, ⟨by decide, by decide, by decide, ?_⟩,
    ⟨by decide, by decide, ?_⟩⟩
  · exact c10_reads_four_bytes.1 (MMU.new [1, 2, 3]) 1 0x1FFFFD (by decide) (by decide)
  · exact c10_reads_four_bytes.2.1 (MMU.new [1, 2, 3]) 1 0x1FC00000 (by decide) (by decide)
      (by decide)
  · exact c10_reads_four_bytes.2.2 (MMU.new [1, 2, 3]) 1 0x100 (by decide) (by decide)

end PSX
